import Mathlib

/-!
# CyberEngineTweaks: D3D12 overlay (src/d3d12/D3D12_Functions.cpp)

A shallow embedding of `D3D12::ResetState`, `D3D12::Initialize`,
`D3D12::ReloadFonts`, `D3D12::InitializeImGui`, `D3D12::PrepareUpdate` and
`D3D12::Update`.

Conventions of the embedding.
* COM objects and windows are handles (`Nat`); a `ComPtr` is an `Option Nat`,
  `none` being the null pointer.
* Cloned draw lists live in an explicit heap `ImHeap`: `IM_NEW` hands out the
  next allocation index as the pointer, `IM_DELETE` records the pointer as freed.
* Results of calls into Direct3D, DXGI, Win32 and the ImGui backends are inputs
  of the operation (`InitEnv`, `FontEnv`, the back-buffer index of `Update`).
* Every external call and every slot action is appended to the ghost field
  `log`, so that the order of effects of one call can be stated.
* Floating-point values (style scaling, font size) are not interpreted.
-/

namespace CET

/-! ## Draw lists and their heap -/

/-- Output buffers of one `ImDrawList`, the part that `CloneOutput` copies. -/
structure ImDrawList where
  CmdBuffer : List Nat
  IdxBuffer : List Nat
  VtxBuffer : List Nat
deriving DecidableEq, Repr

/-- Heap of draw lists created by `CloneOutput` (`IM_NEW`) and released by `IM_DELETE`.
A pointer is the index of its allocation in `allocs`; `freed` lists every pointer
passed to `IM_DELETE`, in order. -/
structure ImHeap where
  allocs : List ImDrawList
  freed : List Nat
deriving DecidableEq, Repr

/-- Allocation of a new draw list: returns the heap and the new pointer. -/
def ImHeap.IM_NEW (h : ImHeap) (d : ImDrawList) : ImHeap × Nat :=
  ({ h with allocs := h.allocs ++ [d] }, h.allocs.length)

/-- Release of a draw list. -/
def ImHeap.IM_DELETE (h : ImHeap) (p : Nat) : ImHeap :=
  { h with freed := h.freed ++ [p] }

/-- Dereference: defined for an allocated pointer that was never freed. -/
def ImHeap.read (h : ImHeap) (p : Nat) : Option ImDrawList :=
  if p ∈ h.freed then none else h.allocs[p]?

/-- The loop `for (i = 0; i < CmdListsCount; ++i) IM_DELETE(CmdLists[i])`, on the pointers it visits. -/
def deleteAll (h : ImHeap) (ps : List Nat) : ImHeap :=
  ps.foldl ImHeap.IM_DELETE h

/-- The loop `copiedDrawLists[i] = drawData.CmdLists[i]->CloneOutput()`, on the contents
of the lists it visits: returns the heap and the pointers of the clones, in order. -/
def cloneAll (h : ImHeap) : List ImDrawList → ImHeap × List Nat
  | [] => (h, [])
  | d :: ds =>
    let r := h.IM_NEW d
    let rs := cloneAll r.1 ds
    (rs.1, r.2 :: rs.2)

/-- The part of `ImDrawData` the overlay code reads or writes. -/
structure ImDrawData where
  Valid : Bool
  CmdListsCount : Nat
  CmdLists : List Nat
  TotalIdxCount : Nat
  TotalVtxCount : Nat
deriving DecidableEq, Repr

/-- `ImDrawData::Clear()` (also the state of a default-constructed `ImDrawData`). -/
def ImDrawData.Clear : ImDrawData :=
  { Valid := false, CmdListsCount := 0, CmdLists := [], TotalIdxCount := 0, TotalVtxCount := 0 }

/-- The array `m_imguiDrawDataBuffers[3]`: `b0` is index 0 (rendered), `b1` index 1
(published, waiting for the render thread), `b2` index 2 (being written). -/
structure Buffers where
  b0 : ImDrawData
  b1 : ImDrawData
  b2 : ImDrawData
deriving DecidableEq, Repr

/-- All three slots in the state `Clear()` leaves them in. -/
def Buffers.empty : Buffers :=
  { b0 := ImDrawData.Clear, b1 := ImDrawData.Clear, b2 := ImDrawData.Clear }

/-! ## Events -/

/-- Kind of a descriptor heap. -/
inductive HeapType where
  | CBV_SRV_UAV
  | RTV
deriving DecidableEq, Repr

/-- External calls and slot actions, in the order the code performs them. -/
inductive Event where
  | lockAcquire
  | lockRelease
  | IM_DELETE (p : Nat)
  | CloneOutput (p : Nat)
  | slotClear (i : Nat)
  | slotStore (i : Nat)
  | slotSwap (i j : Nat)
  | slotInvalidate (i : Nat)
  | ImGui_ImplDX12_Shutdown
  | ImGui_ImplWin32_Shutdown
  | ImGui_DestroyContext
  | ImGui_CreateContext
  | ImGui_ImplWin32_Init
  | ImGui_ImplDX12_Init (numFrames : Nat)
  | ImGui_ImplDX12_CreateDeviceObjects
  | ImGui_ImplWin32_NewFrame
  | ImGui_NewFrame
  | Overlay_Update
  | VM_Draw
  | ImGui_Render
  | ImGui_ImplDX12_NewFrame
  | ImGui_ImplDX12_RenderDrawData
  | GetDevice
  | GetDesc
  | CreateDescriptorHeap (type : HeapType) (NumDescriptors : Nat)
  | GetBuffer (i : Nat)
  | CreateRenderTargetView (i : Nat)
  | CreateCommandAllocator
  | CreateCommandList
  | CommandList_Close
  | CommandAllocator_Reset
  | CommandList_Reset
  | ResourceBarrier
  | SetDescriptorHeaps
  | OMSetRenderTargets
  | ExecuteCommandLists (n : Nat)
  | OnInitialized_Emit
  | Fonts_Clear
  | AddFont
  | LogWarn
  | LogError
  | LogInfo
deriving DecidableEq, Repr

/-! ## State of the `D3D12` object -/

/-- One element of `m_frameContexts`. -/
structure FrameContext where
  CommandAllocator : Option Nat
  CommandList : Option Nat
  BackBuffer : Option Nat
  MainRenderTargetDescriptor : Nat
deriving DecidableEq, Repr

/-- A value-initialised `FrameContext`, as `resize` appends. -/
def FrameContext.default : FrameContext :=
  { CommandAllocator := none, CommandList := none, BackBuffer := none, MainRenderTargetDescriptor := 0 }

/-- Glyph ranges offered by the font atlas (`io.Fonts->GetGlyphRanges...()`). -/
inductive GlyphRanges where
  | Default
  | ChineseFull
  | ChineseSimplifiedCommon
  | Japanese
  | Korean
  | Cyrillic
  | Thai
  | Vietnamese
  | icon_ranges
deriving DecidableEq, Repr

/-- Fields of `ImFontConfig` that `ReloadFonts` sets. `SizePixels` and
`GlyphMinAdvanceX` are floats in the source; they are carried as uninterpreted integers. -/
structure ImFontConfig where
  SizePixels : Int
  OversampleH : Int
  OversampleV : Int
  PixelSnapH : Bool
  MergeMode : Bool
  GlyphMinAdvanceX : Int
deriving DecidableEq, Repr

/-- One call that adds a font to the atlas, with the configuration as it was at the call. -/
inductive FontAdd where
  | AddFontDefault (config : ImFontConfig)
  | AddFontFromFileTTF (filename : String) (size_pixels : Int) (config : ImFontConfig) (glyph_ranges : GlyphRanges)
deriving DecidableEq, Repr

/-- Process-wide state of the UI library and its two backends. -/
structure ImGuiState where
  context : Bool
  win32Backend : Bool
  dx12Backend : Bool
  NoMouseCursorChange : Bool
  Fonts : List FontAdd
deriving DecidableEq, Repr

/-- The members of `D3D12` used by the functions of this file, the UI library state,
the draw-list heap and the event log. -/
structure D3D12 where
  m_initialized : Bool
  m_imguiDrawDataBuffers : Buffers
  m_frameContexts : List FrameContext
  m_outSize : Int × Int
  m_pd3d12Device : Option Nat
  m_pd3dRtvDescHeap : Option Nat
  m_pd3dSrvDescHeap : Option Nat
  m_pCommandQueue : Option Nat
  m_pdxgiSwapChain : Option Nat
  imgui : ImGuiState
  heap : ImHeap
  log : List Event
deriving DecidableEq, Repr

/-- The object before any call: nothing bound, nothing initialised, three cleared slots. -/
def D3D12.init : D3D12 :=
  { m_initialized := false
    m_imguiDrawDataBuffers := Buffers.empty
    m_frameContexts := []
    m_outSize := (0, 0)
    m_pd3d12Device := none
    m_pd3dRtvDescHeap := none
    m_pd3dSrvDescHeap := none
    m_pCommandQueue := none
    m_pdxgiSwapChain := none
    imgui := { context := false, win32Backend := false, dx12Backend := false,
               NoMouseCursorChange := false, Fonts := [] }
    heap := { allocs := [], freed := [] }
    log := [] }

/-! ## ResetState -/

/-- Body of `for (auto& drawData : m_imguiDrawDataBuffers)` for one slot: the heap after
the `IM_DELETE` loop. The slot itself becomes `Clear()`. -/
def resetSlotHeap (h : ImHeap) (d : ImDrawData) : ImHeap :=
  deleteAll h (d.CmdLists.take d.CmdListsCount)

/-- Events of the same loop body for slot `i`. -/
def resetSlotEvents (i : Nat) (d : ImDrawData) : List Event :=
  (d.CmdLists.take d.CmdListsCount).map Event.IM_DELETE ++ [Event.slotClear i]

/-- `bool D3D12::ResetState(const bool acDestroyContext)`. -/
def D3D12.ResetState (s : D3D12) (acDestroyContext : Bool) : D3D12 × Bool :=
  let s1 : D3D12 :=
    if s.m_initialized then
      let b := s.m_imguiDrawDataBuffers
      let h0 := resetSlotHeap s.heap b.b0
      let h1 := resetSlotHeap h0 b.b1
      let h2 := resetSlotHeap h1 b.b2
      { s with
        m_imguiDrawDataBuffers := Buffers.empty
        heap := h2
        imgui := { s.imgui with
                   dx12Backend := false
                   win32Backend := false
                   context := if acDestroyContext then false else s.imgui.context }
        log := s.log ++ [Event.lockAcquire]
                 ++ resetSlotEvents 0 b.b0 ++ resetSlotEvents 1 b.b1 ++ resetSlotEvents 2 b.b2
                 ++ [Event.ImGui_ImplDX12_Shutdown, Event.ImGui_ImplWin32_Shutdown]
                 ++ (if acDestroyContext then [Event.ImGui_DestroyContext] else [])
                 ++ [Event.lockRelease] }
    else s
  ({ s1 with
     m_frameContexts := []
     m_outSize := (0, 0)
     m_pd3d12Device := none
     m_pd3dRtvDescHeap := none
     m_pd3dSrvDescHeap := none
     m_pCommandQueue := none
     m_pdxgiSwapChain := none
     m_initialized := false }, false)

/-! ## PrepareUpdate and Update -/

/-- The draw data `ImGui::Render()` leaves behind `ImGui::GetDrawData()`, for live lists
with the given contents, once `CmdLists` has been replaced by the clones `ps`. -/
def snapshotOf (live : List ImDrawList) (ps : List Nat) : ImDrawData :=
  { Valid := true
    CmdListsCount := live.length
    CmdLists := ps
    TotalIdxCount := (live.map fun d => d.IdxBuffer.length).sum
    TotalVtxCount := (live.map fun d => d.VtxBuffer.length).sum }

/-- Body of `D3D12::PrepareUpdate` after the `m_initialized` check, from taking the lock
to the end of the function. `live` are the contents of the draw lists of
`ImGui::GetDrawData()` after `ImGui::Render()`. -/
def D3D12.PrepareUpdateLocked (s : D3D12) (live : List ImDrawList) : D3D12 :=
  let b := s.m_imguiDrawDataBuffers
  let old := b.b2.CmdLists.take b.b2.CmdListsCount
  let h1 := deleteAll s.heap old
  let c := cloneAll h1 live
  let drawData := snapshotOf live c.2
  { s with
    heap := c.1
    m_imguiDrawDataBuffers := { b0 := b.b0, b1 := drawData, b2 := b.b1 }
    log := s.log ++ [Event.lockAcquire, Event.ImGui_ImplWin32_NewFrame, Event.ImGui_NewFrame,
                     Event.Overlay_Update, Event.VM_Draw, Event.ImGui_Render]
             ++ old.map Event.IM_DELETE ++ [Event.slotClear 2, Event.slotStore 2]
             ++ c.2.map Event.CloneOutput
             ++ [Event.slotSwap 1 2, Event.lockRelease] }

/-- `void D3D12::PrepareUpdate()`. -/
def D3D12.PrepareUpdate (s : D3D12) (live : List ImDrawList) : D3D12 :=
  if !s.m_initialized then s else s.PrepareUpdateLocked live

/-- The first block of `D3D12::Update`, executed under the lock. -/
def D3D12.Consume (s : D3D12) : D3D12 :=
  let b := s.m_imguiDrawDataBuffers
  if b.b1.Valid then
    { s with
      m_imguiDrawDataBuffers := { b0 := b.b1, b1 := { b.b0 with Valid := false }, b2 := b.b2 }
      log := s.log ++ [Event.lockAcquire, Event.ImGui_ImplDX12_NewFrame,
                       Event.slotSwap 0 1, Event.slotInvalidate 1, Event.lockRelease] }
  else
    { s with
      log := s.log ++ [Event.lockAcquire, Event.ImGui_ImplDX12_NewFrame, Event.lockRelease] }

/-- Ways in which `D3D12::Update` leaves defined behaviour. -/
inductive Fault where
  | assertSwapChain
  | frameContextOutOfRange
  | nullDereference
deriving DecidableEq, Repr

/-- Events of the frame submission of `D3D12::Update`, after the Frame Context lookup. -/
def submitEvents : List Event :=
  [Event.CommandAllocator_Reset, Event.CommandList_Reset, Event.ResourceBarrier,
   Event.SetDescriptorHeaps, Event.OMSetRenderTargets, Event.ImGui_ImplDX12_RenderDrawData,
   Event.ResourceBarrier, Event.CommandList_Close, Event.ExecuteCommandLists 1]

/-- `void D3D12::Update()`. `backBufferIndex` is what
`m_pdxgiSwapChain->GetCurrentBackBufferIndex()` returns. -/
def D3D12.Update (s : D3D12) (backBufferIndex : Nat) : Except Fault D3D12 :=
  let s1 := s.Consume
  if !s1.m_imguiDrawDataBuffers.b0.Valid then .ok s1
  else
    match s1.m_pdxgiSwapChain with
    | none => .error Fault.assertSwapChain
    | some _ =>
      match s1.m_frameContexts[backBufferIndex]? with
      | none => .error Fault.frameContextOutOfRange
      | some frameContext =>
        match frameContext.CommandAllocator, frameContext.CommandList, s1.m_pCommandQueue with
        | some _, some _, some _ => .ok { s1 with log := s1.log ++ submitEvents }
        | _, _, _ => .error Fault.nullDereference

/-! ## ReloadFonts -/

/-- The recognised options of `m_options.Font`. `BaseSize` is a float and enters only
through `FontEnv.SizePixels`. -/
structure FontSettings where
  OversampleHorizontal : Int
  OversampleVertical : Int
  Path : String
  Language : String
deriving DecidableEq, Repr

/-- First argument of `GetAbsolutePath`: a bare file name, or `m_paths.Fonts() / name`. -/
inductive PathArg where
  | name (n : String)
  | inFonts (n : String)
deriving DecidableEq, Repr

/-- What `ReloadFonts` reads from outside the object. `GetAbsolutePath a` stands for
`GetAbsolutePath(a, m_paths.Fonts(), false)` (declared in Utils.h), the empty string being
the empty path; `SizePixels` stands for the float
`std::floorf(fontSettings.BaseSize * scaleFromReference)`. -/
structure FontEnv where
  Font : FontSettings
  SizePixels : Int
  GetAbsolutePath : PathArg → String
  GetSystemDefaultLangID : Nat

/-- `MAKELANGID(p, s)` of the Windows SDK. -/
def MAKELANGID (p s : Nat) : Nat := (s <<< 10) ||| p

/-- Primary and sub-language identifiers of the Windows SDK. -/
def LANG_CHINESE : Nat := 0x04
def LANG_JAPANESE : Nat := 0x11
def LANG_KOREAN : Nat := 0x12
def LANG_RUSSIAN : Nat := 0x19
def LANG_THAI : Nat := 0x1e
def LANG_BELARUSIAN : Nat := 0x23
def LANG_VIETNAMESE : Nat := 0x2a
def SUBLANG_DEFAULT : Nat := 0x01
def SUBLANG_CHINESE_TRADITIONAL : Nat := 0x01
def SUBLANG_CHINESE_SIMPLIFIED : Nat := 0x02

/-- The `ImFontConfig config` of `ReloadFonts` after lines 155-162: a default-constructed
configuration (`PixelSnapH = false`, `GlyphMinAdvanceX = 0`) with size and oversampling
set, pixel snapping switched on when both oversampling factors are 1, and `MergeMode = false`. -/
def baseFontConfig (fontSettings : FontSettings) (SizePixels : Int) : ImFontConfig :=
  let config : ImFontConfig :=
    { SizePixels := SizePixels
      OversampleH := fontSettings.OversampleHorizontal
      OversampleV := fontSettings.OversampleVertical
      PixelSnapH := false
      MergeMode := false
      GlyphMinAdvanceX := 0 }
  let config := if config.OversampleH = 1 ∧ config.OversampleV = 1 then { config with PixelSnapH := true } else config
  { config with MergeMode := false }

/-- The `switch (GetSystemDefaultLangID())` of `ReloadFonts`: the new `cetFontPath` and
`cpGlyphRanges`, or the old ones when no case matches. -/
def selectByLocale (env : FontEnv) (cetFontPath : String) (cpGlyphRanges : GlyphRanges) : String × GlyphRanges :=
  let id := env.GetSystemDefaultLangID
  if id = MAKELANGID LANG_CHINESE SUBLANG_CHINESE_TRADITIONAL then
    (env.GetAbsolutePath (.name "NotoSansTC-Regular.otf"), GlyphRanges.ChineseFull)
  else if id = MAKELANGID LANG_CHINESE SUBLANG_CHINESE_SIMPLIFIED then
    (env.GetAbsolutePath (.inFonts "NotoSansSC-Regular.otf"), GlyphRanges.ChineseSimplifiedCommon)
  else if id = MAKELANGID LANG_JAPANESE SUBLANG_DEFAULT then
    (env.GetAbsolutePath (.inFonts "NotoSansJP-Regular.otf"), GlyphRanges.Japanese)
  else if id = MAKELANGID LANG_KOREAN SUBLANG_DEFAULT then
    (env.GetAbsolutePath (.inFonts "NotoSansKR-Regular.otf"), GlyphRanges.Korean)
  else if id = MAKELANGID LANG_BELARUSIAN SUBLANG_DEFAULT ∨ id = MAKELANGID LANG_RUSSIAN SUBLANG_DEFAULT then
    (env.GetAbsolutePath (.inFonts "NotoSans-Regular.ttf"), GlyphRanges.Cyrillic)
  else if id = MAKELANGID LANG_THAI SUBLANG_DEFAULT then
    (env.GetAbsolutePath (.inFonts "NotoSansThai-Regular.ttf"), GlyphRanges.Thai)
  else if id = MAKELANGID LANG_VIETNAMESE SUBLANG_DEFAULT then
    (env.GetAbsolutePath (.inFonts "NotoSans-Regular.ttf"), GlyphRanges.Vietnamese)
  else (cetFontPath, cpGlyphRanges)

/-- Lines 184-259 of `ReloadFonts`: `cetFontPath` and `cpGlyphRanges` after the chain on
`fontSettings.Language`, entered with the values of the base font. -/
def selectLanguage (env : FontEnv) (cetFontPath : String) (cpGlyphRanges : GlyphRanges) : String × GlyphRanges :=
  let Language := env.Font.Language
  if Language = "ChineseFull" then
    (env.GetAbsolutePath (.inFonts "NotoSansTC-Regular.otf"), GlyphRanges.ChineseFull)
  else if Language = "ChineseSimplifiedCommon" then
    (env.GetAbsolutePath (.inFonts "NotoSansSC-Regular.otf"), GlyphRanges.ChineseSimplifiedCommon)
  else if Language = "Japanese" then
    (env.GetAbsolutePath (.inFonts "NotoSansJP-Regular.otf"), GlyphRanges.Japanese)
  else if Language = "Korean" then
    (env.GetAbsolutePath (.inFonts "NotoSansKR-Regular.otf"), GlyphRanges.Korean)
  else if Language = "Cyrillic" then
    (env.GetAbsolutePath (.inFonts "NotoSans-Regular.ttf"), GlyphRanges.Cyrillic)
  else if Language = "Thai" then
    (env.GetAbsolutePath (.inFonts "NotoSansThai-Regular.ttf"), GlyphRanges.Thai)
  else if Language = "Vietnamese" then
    (env.GetAbsolutePath (.inFonts "NotoSans-Regular.ttf"), GlyphRanges.Vietnamese)
  else selectByLocale env cetFontPath cpGlyphRanges

/-- The block used twice in `ReloadFonts` (lines 168-182 and 263-277): which font is
added, from the custom path, else from `cetFontPath`, else the embedded default font. -/
def addFontBlock (customFontPath cetFontPath : String) (config : ImFontConfig) (cpGlyphRanges : GlyphRanges) : FontAdd :=
  if customFontPath = "" then
    if cetFontPath = "" then FontAdd.AddFontDefault config
    else FontAdd.AddFontFromFileTTF cetFontPath config.SizePixels config cpGlyphRanges
  else FontAdd.AddFontFromFileTTF customFontPath config.SizePixels config cpGlyphRanges

/-- Warnings logged by the same block. -/
def addFontBlockEvents (Path customFontPath cetFontPath : String) : List Event :=
  if customFontPath = "" then
    (if Path ≠ "" then [Event.LogWarn] else []) ++
    (if cetFontPath = "" then [Event.LogWarn, Event.AddFont] else [Event.AddFont])
  else [Event.AddFont]

/-- The `customFontPath` of `ReloadFonts`. -/
def customFontPathOf (env : FontEnv) : String :=
  if env.Font.Path = "" then "" else env.GetAbsolutePath (.name env.Font.Path)

/-- The three fonts `ReloadFonts` adds to the cleared atlas: base font, language font
merged into it, icon font merged into it. -/
def reloadedFonts (env : FontEnv) : List FontAdd :=
  let config := baseFontConfig env.Font env.SizePixels
  let customFontPath := customFontPathOf env
  let cetFontPath := env.GetAbsolutePath (.name "NotoSans-Regular.ttf")
  let cpGlyphRanges := GlyphRanges.Default
  let base := addFontBlock customFontPath cetFontPath config cpGlyphRanges
  let sel := selectLanguage env cetFontPath cpGlyphRanges
  let config := { config with MergeMode := true }
  let merged := addFontBlock customFontPath sel.1 config sel.2
  let config := { config with GlyphMinAdvanceX := config.SizePixels }
  let cetIconPath := env.GetAbsolutePath (.name "materialdesignicons.ttf")
  [base, merged, FontAdd.AddFontFromFileTTF cetIconPath config.SizePixels config GlyphRanges.icon_ranges]

/-- `void D3D12::ReloadFonts()`. -/
def D3D12.ReloadFonts (s : D3D12) (env : FontEnv) : D3D12 :=
  let customFontPath := customFontPathOf env
  let cetFontPath := env.GetAbsolutePath (.name "NotoSans-Regular.ttf")
  let sel := selectLanguage env cetFontPath GlyphRanges.Default
  { s with
    imgui := { s.imgui with Fonts := reloadedFonts env }
    log := s.log ++ [Event.lockAcquire, Event.Fonts_Clear]
             ++ addFontBlockEvents env.Font.Path customFontPath cetFontPath
             ++ addFontBlockEvents env.Font.Path customFontPath sel.1
             ++ [Event.AddFont, Event.lockRelease] }

/-! ## Initialize -/

/-- The fields of `DXGI_SWAP_CHAIN_DESC` that `Initialize` reads. -/
structure SwapChainDesc where
  Width : Nat
  Height : Nat
  BufferCount : Nat
  OutputWindow : Nat
deriving DecidableEq, Repr

/-- Results of the external calls of one `Initialize`. A failed `HRESULT` is `none`
(or `false`), a window handle of 0 is the null handle. Calls made once per Frame Context
are indexed by the position of the context. `ResetStateDefault` is the default argument
of `ResetState`, declared in D3D12.h. -/
structure InitEnv where
  hWnd : Nat
  GetDevice : Option Nat
  sdesc : SwapChainDesc
  CreateSrvDescHeap : Option Nat
  CreateRtvDescHeap : Option Nat
  rtvDescriptorSize : Nat
  rtvHeapStart : Nat
  GetBuffer : Nat → Option Nat
  CreateCommandAllocator : Nat → Option Nat
  CreateCommandList : Nat → Option Nat
  CommandList_Close : Nat → Bool
  ImGui_ImplWin32_Init : Bool
  ImGui_ImplDX12_Init : Bool
  ImGui_ImplDX12_CreateDeviceObjects : Bool
  ResetStateDefault : Bool
  font : FontEnv

/-- `static_cast<LONG>` of a `UINT`. -/
def toLONG (u : Nat) : Int :=
  let v : Nat := u % 2 ^ 32
  if v < 2 ^ 31 then (v : Int) else (v : Int) - 2 ^ 32

/-- `std::vector::resize`. -/
def resizeContexts (xs : List FrameContext) (n : Nat) : List FrameContext :=
  xs.take n ++ List.replicate (n - xs.length) FrameContext.default

/-- The loop of lines 105-112, from index `i` and descriptor handle `rtvHandle`, over the
contexts not yet visited. `SIZE_T` is 64 bits wide. -/
def createRenderTargets (env : InitEnv) : Nat → Nat → List FrameContext → List FrameContext
  | _, _, [] => []
  | i, rtvHandle, context :: rest =>
    { context with MainRenderTargetDescriptor := rtvHandle, BackBuffer := env.GetBuffer i }
      :: createRenderTargets env (i + 1) ((rtvHandle + env.rtvDescriptorSize) % 2 ^ 64) rest

/-- Events of the same loop. -/
def createRenderTargetsEvents (n : Nat) : List Event :=
  (List.range n).flatMap fun i => [Event.GetBuffer i, Event.CreateRenderTargetView i]

/-- The loop of lines 114-128, from position `i`: the contexts, the events, and whether
every allocator and command list was created and closed. A failed creation leaves the
`ComPtr` it was to fill null. -/
def createCommandObjects (env : InitEnv) : Nat → List FrameContext → List FrameContext × List Event × Bool
  | _, [] => ([], [], true)
  | i, context :: rest =>
    match env.CreateCommandAllocator i with
    | none =>
      ({ context with CommandAllocator := none } :: rest, [Event.CreateCommandAllocator, Event.LogError], false)
    | some a =>
      let context := { context with CommandAllocator := some a }
      match env.CreateCommandList i with
      | none =>
        ({ context with CommandList := none } :: rest,
         [Event.CreateCommandAllocator, Event.CreateCommandList, Event.LogError], false)
      | some l =>
        let context := { context with CommandList := some l }
        if env.CommandList_Close i then
          let r := createCommandObjects env (i + 1) rest
          (context :: r.1,
           [Event.CreateCommandAllocator, Event.CreateCommandList, Event.CommandList_Close] ++ r.2.1, r.2.2)
        else
          (context :: rest,
           [Event.CreateCommandAllocator, Event.CreateCommandList, Event.CommandList_Close, Event.LogError], false)

/-- `bool D3D12::InitializeImGui(size_t aBuffersCounts)`. -/
def D3D12.InitializeImGui (s : D3D12) (aBuffersCounts : Nat) (env : InitEnv) : D3D12 × Bool :=
  let s : D3D12 :=
    if s.imgui.context = false then
      { s with imgui := { s.imgui with context := true }
               log := s.log ++ [Event.lockAcquire, Event.ImGui_CreateContext] }
    else { s with log := s.log ++ [Event.lockAcquire] }
  let s : D3D12 := { s with imgui := { s.imgui with NoMouseCursorChange := true } }
  if !env.ImGui_ImplWin32_Init then
    ({ s with log := s.log ++ [Event.ImGui_ImplWin32_Init, Event.LogError, Event.lockRelease] }, false)
  else
    let s : D3D12 := { s with imgui := { s.imgui with win32Backend := true }
                              log := s.log ++ [Event.ImGui_ImplWin32_Init] }
    if !env.ImGui_ImplDX12_Init then
      ({ s with imgui := { s.imgui with win32Backend := false }
                log := s.log ++ [Event.ImGui_ImplDX12_Init aBuffersCounts, Event.LogError,
                                 Event.ImGui_ImplWin32_Shutdown, Event.lockRelease] }, false)
    else
      let s : D3D12 := { s with imgui := { s.imgui with dx12Backend := true }
                                log := s.log ++ [Event.ImGui_ImplDX12_Init aBuffersCounts] }
      let s := s.ReloadFonts env.font
      if !env.ImGui_ImplDX12_CreateDeviceObjects then
        ({ s with imgui := { s.imgui with dx12Backend := false, win32Backend := false }
                  log := s.log ++ [Event.ImGui_ImplDX12_CreateDeviceObjects, Event.LogError,
                                   Event.ImGui_ImplDX12_Shutdown, Event.ImGui_ImplWin32_Shutdown,
                                   Event.lockRelease] }, false)
      else
        ({ s with log := s.log ++ [Event.ImGui_ImplDX12_CreateDeviceObjects, Event.lockRelease] }, true)

/-- `bool D3D12::Initialize()`. -/
def D3D12.Initialize (s : D3D12) (env : InitEnv) : D3D12 × Bool :=
  if s.m_initialized then (s, true)
  else
    match s.m_pdxgiSwapChain with
    | none => (s, false)
    | some _ =>
      if env.hWnd = 0 then ({ s with log := s.log ++ [Event.LogWarn] }, false)
      else
        match env.GetDevice with
        | none =>
          D3D12.ResetState { s with m_pd3d12Device := none
                                    log := s.log ++ [Event.GetDevice, Event.LogError] } env.ResetStateDefault
        | some device =>
          let buffersCounts := min env.sdesc.BufferCount 3
          let s : D3D12 :=
            { s with
              m_pd3d12Device := some device
              m_outSize := (toLONG env.sdesc.Width, toLONG env.sdesc.Height)
              m_frameContexts := resizeContexts s.m_frameContexts buffersCounts
              log := s.log ++ [Event.GetDevice, Event.GetDesc]
                       ++ (if env.hWnd ≠ env.sdesc.OutputWindow then [Event.LogWarn] else []) }
          match env.CreateSrvDescHeap with
          | none =>
            D3D12.ResetState { s with m_pd3dSrvDescHeap := none
                                      log := s.log ++ [Event.CreateDescriptorHeap HeapType.CBV_SRV_UAV 200,
                                                       Event.LogError] } env.ResetStateDefault
          | some srv =>
            let s : D3D12 :=
              { s with m_pd3dSrvDescHeap := some srv
                       log := s.log ++ [Event.CreateDescriptorHeap HeapType.CBV_SRV_UAV 200] }
            match env.CreateRtvDescHeap with
            | none =>
              D3D12.ResetState { s with m_pd3dRtvDescHeap := none
                                        log := s.log ++ [Event.CreateDescriptorHeap HeapType.RTV buffersCounts,
                                                         Event.LogError] } env.ResetStateDefault
            | some rtv =>
              let s : D3D12 :=
                { s with m_pd3dRtvDescHeap := some rtv
                         m_frameContexts := createRenderTargets env 0 env.rtvHeapStart s.m_frameContexts
                         log := s.log ++ [Event.CreateDescriptorHeap HeapType.RTV buffersCounts]
                                  ++ createRenderTargetsEvents buffersCounts }
              let r := createCommandObjects env 0 s.m_frameContexts
              let s : D3D12 := { s with m_frameContexts := r.1, log := s.log ++ r.2.1 }
              if !r.2.2 then D3D12.ResetState s env.ResetStateDefault
              else
                let g := s.InitializeImGui buffersCounts env
                if !g.2 then
                  D3D12.ResetState { g.1 with log := g.1.log ++ [Event.LogError] } env.ResetStateDefault
                else
                  ({ g.1 with m_initialized := true
                              log := g.1.log ++ [Event.LogInfo, Event.OnInitialized_Emit] }, true)

/-! ## Calls as steps -/

/-- A call on the object, with the results of the external calls it makes. `bind` is
the hook layer storing the swapchain and command queue it intercepted. -/
inductive Call where
  | bind (swapChain commandQueue : Nat)
  | Initialize (env : InitEnv)
  | ResetState (acDestroyContext : Bool)
  | PrepareUpdate (live : List ImDrawList)
  | Update (backBufferIndex : Nat)

/-- One call; `none` when `Update` leaves defined behaviour. -/
def D3D12.call (s : D3D12) : Call → Option D3D12
  | .bind sc q => some { s with m_pdxgiSwapChain := some sc, m_pCommandQueue := some q }
  | .Initialize env => some (s.Initialize env).1
  | .ResetState b => some (s.ResetState b).1
  | .PrepareUpdate live => some (s.PrepareUpdate live)
  | .Update i =>
    match s.Update i with
    | .ok s1 => some s1
    | .error _ => none

/-- A sequence of calls from a given state. -/
def D3D12.calls (s : D3D12) : List Call → Option D3D12
  | [] => some s
  | c :: cs =>
    match s.call c with
    | none => none
    | some s1 => s1.calls cs

/-- The two atomic steps of the draw-data pipeline. -/
inductive PipeStep where
  | PrepareUpdate (live : List ImDrawList)
  | Consume

/-- One pipeline step. -/
def D3D12.pipeStep (s : D3D12) : PipeStep → D3D12
  | .PrepareUpdate live => s.PrepareUpdateLocked live
  | .Consume => s.Consume

/-- A sequence of pipeline steps from a given state. -/
def D3D12.pipeline (s : D3D12) (steps : List PipeStep) : D3D12 :=
  steps.foldl D3D12.pipeStep s

/-! ## Notions used to state the properties -/

/-- Snapshot `d` (up to its validity flag) is the one a `PrepareUpdate` among `steps` stored
in slot 1, and its pointers read in `h` as the contents that were cloned. -/
def Stored (s0 : D3D12) (steps : List PipeStep) (h : ImHeap) (d : ImDrawData) : Prop :=
  ∃ pre live post, steps = pre ++ PipeStep.PrepareUpdate live :: post ∧
    { d with Valid := true } = ((s0.pipeline pre).PrepareUpdateLocked live).m_imguiDrawDataBuffers.b1 ∧
    d.CmdLists.map h.read = live.map some

/-- Invariant of the pipeline after `steps` from `s0`: freed pointers were allocated, slot 0
is cleared or a valid stored snapshot, slots 1 and 2 are cleared or stored snapshots, and
no pointer is held by two slots. -/
structure PipeInv (s0 : D3D12) (steps : List PipeStep) (s : D3D12) : Prop where
  freed_lt : ∀ p ∈ s.heap.freed, p < s.heap.allocs.length
  o0 : s.m_imguiDrawDataBuffers.b0 = ImDrawData.Clear ∨
        (s.m_imguiDrawDataBuffers.b0.Valid = true ∧ Stored s0 steps s.heap s.m_imguiDrawDataBuffers.b0)
  o1 : s.m_imguiDrawDataBuffers.b1 = ImDrawData.Clear ∨ Stored s0 steps s.heap s.m_imguiDrawDataBuffers.b1
  o2 : s.m_imguiDrawDataBuffers.b2 = ImDrawData.Clear ∨ Stored s0 steps s.heap s.m_imguiDrawDataBuffers.b2
  d01 : ∀ p ∈ s.m_imguiDrawDataBuffers.b0.CmdLists, p ∉ s.m_imguiDrawDataBuffers.b1.CmdLists
  d02 : ∀ p ∈ s.m_imguiDrawDataBuffers.b0.CmdLists, p ∉ s.m_imguiDrawDataBuffers.b2.CmdLists
  d12 : ∀ p ∈ s.m_imguiDrawDataBuffers.b1.CmdLists, p ∉ s.m_imguiDrawDataBuffers.b2.CmdLists

/-- While the flag is false the three slots are cleared. -/
def Gated (s : D3D12) : Prop :=
  s.m_initialized = false → s.m_imguiDrawDataBuffers = Buffers.empty

/-- Sizes of the RTV descriptor heaps created in a trace. -/
def rtvHeapSizes (tr : List Event) : List Nat :=
  tr.filterMap fun e => match e with
    | Event.CreateDescriptorHeap HeapType.RTV n => some n
    | _ => none

/-- Frame counts passed to `ImGui_ImplDX12_Init` in a trace. -/
def dx12InitArgs (tr : List Event) : List Nat :=
  tr.filterMap fun e => match e with
    | Event.ImGui_ImplDX12_Init n => some n
    | _ => none

/-- Creating the allocator, creating the command list or closing it fails at context `i`. -/
def InitEnv.commandObjectsFail (env : InitEnv) (i : Nat) : Prop :=
  env.CreateCommandAllocator i = none ∨ env.CreateCommandList i = none ∨ env.CommandList_Close i = false

/-- A backend call of `InitializeImGui` fails. -/
def InitEnv.imguiFails (env : InitEnv) : Prop :=
  env.ImGui_ImplWin32_Init = false ∨ env.ImGui_ImplDX12_Init = false ∨
    env.ImGui_ImplDX12_CreateDeviceObjects = false

/-- Some internal step of `Initialize` fails: getting the device, creating the SRV heap,
creating the RTV heap, the command objects of one of the Frame Contexts, or `InitializeImGui`. -/
def InitEnv.fails (env : InitEnv) : Prop :=
  env.GetDevice = none ∨ env.CreateSrvDescHeap = none ∨ env.CreateRtvDescHeap = none ∨
    (∃ i, i < min env.sdesc.BufferCount 3 ∧ env.commandObjectsFail i) ∨ env.imguiFails

instance (env : InitEnv) (i : Nat) : Decidable (env.commandObjectsFail i) := by
  unfold InitEnv.commandObjectsFail
  infer_instance

instance (env : InitEnv) : Decidable env.imguiFails := by
  unfold InitEnv.imguiFails
  infer_instance

instance (env : InitEnv) : Decidable env.fails := by
  unfold InitEnv.fails
  infer_instance

/-- Events of `ReloadFonts`. -/
def reloadFontsEvents (env : FontEnv) : List Event :=
  [Event.lockAcquire, Event.Fonts_Clear]
    ++ addFontBlockEvents env.Font.Path (customFontPathOf env) (env.GetAbsolutePath (.name "NotoSans-Regular.ttf"))
    ++ addFontBlockEvents env.Font.Path (customFontPathOf env)
        (selectLanguage env (env.GetAbsolutePath (.name "NotoSans-Regular.ttf")) GlyphRanges.Default).1
    ++ [Event.AddFont, Event.lockRelease]

/-- Events of an `InitializeImGui` in which every backend call succeeds; `context` tells
whether the UI context existed before the call. -/
def imguiOkEvents (context : Bool) (k : Nat) (env : InitEnv) : List Event :=
  (if context = false then [Event.lockAcquire, Event.ImGui_CreateContext] else [Event.lockAcquire])
    ++ [Event.ImGui_ImplWin32_Init, Event.ImGui_ImplDX12_Init k]
    ++ reloadFontsEvents env.font
    ++ [Event.ImGui_ImplDX12_CreateDeviceObjects, Event.lockRelease]

/-- The events of a trace that occur while `m_imguiLock` is held, `depth` being the number
of holders when the trace starts (the lock guards nest inside `InitializeImGui`). -/
def heldEvents : Nat → List Event → List Event
  | _, [] => []
  | depth, e :: es =>
    if e = Event.lockAcquire then heldEvents (depth + 1) es
    else if e = Event.lockRelease then heldEvents (depth - 1) es
    else if 0 < depth then e :: heldEvents depth es
    else heldEvents depth es

/-- Swaps of slots and of validity flags. -/
def Event.isSlotSwap : Event → Bool
  | Event.slotSwap _ _ => true
  | Event.slotInvalidate _ => true
  | _ => false

/-- The configuration a font was added with. -/
def FontAdd.config : FontAdd → ImFontConfig
  | FontAdd.AddFontDefault config => config
  | FontAdd.AddFontFromFileTTF _ _ config _ => config

/-- The values of `Language` that `ReloadFonts` recognises. -/
def recognisedLanguages : List String :=
  ["ChineseFull", "ChineseSimplifiedCommon", "Japanese", "Korean", "Cyrillic", "Thai", "Vietnamese"]

/-- The language identifiers that `ReloadFonts` has a case for. -/
def listedLangIDs : List Nat :=
  [MAKELANGID LANG_CHINESE SUBLANG_CHINESE_TRADITIONAL, MAKELANGID LANG_CHINESE SUBLANG_CHINESE_SIMPLIFIED,
   MAKELANGID LANG_JAPANESE SUBLANG_DEFAULT, MAKELANGID LANG_KOREAN SUBLANG_DEFAULT,
   MAKELANGID LANG_BELARUSIAN SUBLANG_DEFAULT, MAKELANGID LANG_RUSSIAN SUBLANG_DEFAULT,
   MAKELANGID LANG_THAI SUBLANG_DEFAULT, MAKELANGID LANG_VIETNAMESE SUBLANG_DEFAULT]

/-! ## Concrete inputs -/

/-- A fonts directory in which every requested file is found. -/
def sampleResolve : PathArg → String
  | .name n => "fonts/" ++ n
  | .inFonts n => "fonts/" ++ n

/-- Oversampling 1/1, no custom font, no language override, Japanese locale. -/
def sampleFontEnv : FontEnv :=
  { Font := { OversampleHorizontal := 1, OversampleVertical := 1, Path := "", Language := "" }
    SizePixels := 21
    GetAbsolutePath := sampleResolve
    GetSystemDefaultLangID := 0x0411 }

/-- Explicit Japanese together with a custom font that is found, on a Korean locale. -/
def customJapaneseEnv : FontEnv :=
  { Font := { OversampleHorizontal := 2, OversampleVertical := 1, Path := "Custom.ttf", Language := "Japanese" }
    SizePixels := 21
    GetAbsolutePath := sampleResolve
    GetSystemDefaultLangID := 0x0412 }

/-- A 2560x1440 swapchain with `n` buffers on which every call succeeds. -/
def sampleEnv (n : Nat) : InitEnv :=
  { hWnd := 7
    GetDevice := some 1
    sdesc := { Width := 2560, Height := 1440, BufferCount := n, OutputWindow := 7 }
    CreateSrvDescHeap := some 2
    CreateRtvDescHeap := some 3
    rtvDescriptorSize := 32
    rtvHeapStart := 1000
    GetBuffer := fun i => some (100 + i)
    CreateCommandAllocator := fun i => some (200 + i)
    CreateCommandList := fun i => some (300 + i)
    CommandList_Close := fun _ => true
    ImGui_ImplWin32_Init := true
    ImGui_ImplDX12_Init := true
    ImGui_ImplDX12_CreateDeviceObjects := true
    ResetStateDefault := false
    font := sampleFontEnv }

/-- The same swapchain with two buffers, where creating the RTV heap fails. -/
def failingEnv : InitEnv :=
  { sampleEnv 2 with CreateRtvDescHeap := none }

/-- A draw list with one command, three indices and three vertices. -/
def sampleDrawList : ImDrawList :=
  { CmdBuffer := [1], IdxBuffer := [0, 1, 2], VtxBuffer := [10, 11, 12] }

/-- The object after the hook layer stored a swapchain and a command queue. -/
def sampleBound : D3D12 :=
  { D3D12.init with m_pdxgiSwapChain := some 50, m_pCommandQueue := some 60 }

/-- The object after a successful `Initialize` on a swapchain with `n` buffers. -/
def sampleReady (n : Nat) : D3D12 :=
  (sampleBound.Initialize (sampleEnv n)).1

/-- The initialised object after one `PrepareUpdate`. -/
def samplePublished (n : Nat) : D3D12 :=
  (sampleReady n).PrepareUpdate [sampleDrawList]

/-- The state after the first of two `Update` calls without a `PrepareUpdate` between them. -/
def sampleUpdated1 : D3D12 :=
  { (samplePublished 3).Consume with log := (samplePublished 3).Consume.log ++ submitEvents }

/-- The state after the second of the two `Update` calls. -/
def sampleUpdated2 : D3D12 :=
  { sampleUpdated1.Consume with log := sampleUpdated1.Consume.log ++ submitEvents }

/-- The object after initialisation, one published frame, one rendered frame and a shutdown. -/
def sampleShutDown : D3D12 :=
  (sampleUpdated1.ResetState false).1

/-- The calls that lead to `sampleShutDown`. -/
def sampleCalls : List Call :=
  [Call.bind 50 60, Call.Initialize (sampleEnv 3), Call.PrepareUpdate [sampleDrawList], Call.Update 0,
   Call.ResetState false]

/-- While the flag is true there are `min n 3` Frame Contexts. -/
def Sized (n : Nat) (s : D3D12) : Prop :=
  s.m_initialized = true → s.m_frameContexts.length = min n 3

/-! ## Lemmas -/

/-! ### The heap and the two pipeline steps -/

theorem deleteAll_eq (h : ImHeap) (ps : List Nat) :
    deleteAll h ps = { allocs := h.allocs, freed := h.freed ++ ps } := by
  induction ps generalizing h with
  | nil => simp [deleteAll]
  | cons p ps ih =>
    have := ih (h.IM_DELETE p)
    simp only [deleteAll, List.foldl_cons] at this ⊢
    rw [this]
    simp [ImHeap.IM_DELETE]

theorem cloneAll_eq (h : ImHeap) (ds : List ImDrawList) :
    cloneAll h ds = ({ allocs := h.allocs ++ ds, freed := h.freed }, List.range' h.allocs.length ds.length) := by
  induction ds generalizing h with
  | nil => simp [cloneAll]
  | cons d ds ih =>
    simp only [cloneAll, ih, ImHeap.IM_NEW]
    simp [List.range']

theorem PrepareUpdateLocked_heap (s : D3D12) (live : List ImDrawList) :
    (s.PrepareUpdateLocked live).heap =
      { allocs := s.heap.allocs ++ live
        freed := s.heap.freed ++
          s.m_imguiDrawDataBuffers.b2.CmdLists.take s.m_imguiDrawDataBuffers.b2.CmdListsCount } := by
  simp [D3D12.PrepareUpdateLocked, cloneAll_eq, deleteAll_eq]

theorem PrepareUpdateLocked_buffers (s : D3D12) (live : List ImDrawList) :
    (s.PrepareUpdateLocked live).m_imguiDrawDataBuffers =
      { b0 := s.m_imguiDrawDataBuffers.b0
        b1 := snapshotOf live (List.range' s.heap.allocs.length live.length)
        b2 := s.m_imguiDrawDataBuffers.b1 } := by
  simp [D3D12.PrepareUpdateLocked, cloneAll_eq, deleteAll_eq]

theorem Consume_heap (s : D3D12) : s.Consume.heap = s.heap := by
  by_cases h : s.m_imguiDrawDataBuffers.b1.Valid = true <;> simp [D3D12.Consume, h]

theorem Consume_buffers (s : D3D12) :
    s.Consume.m_imguiDrawDataBuffers =
      if s.m_imguiDrawDataBuffers.b1.Valid then
        { b0 := s.m_imguiDrawDataBuffers.b1
          b1 := { s.m_imguiDrawDataBuffers.b0 with Valid := false }
          b2 := s.m_imguiDrawDataBuffers.b2 }
      else s.m_imguiDrawDataBuffers := by
  by_cases h : s.m_imguiDrawDataBuffers.b1.Valid = true <;> simp [D3D12.Consume, h]

theorem read_eq_some {h : ImHeap} {p : Nat} {x : ImDrawList} (hr : h.read p = some x) :
    p ∉ h.freed ∧ p < h.allocs.length := by
  unfold ImHeap.read at hr
  by_cases hp : p ∈ h.freed
  · simp [hp] at hr
  · simp only [hp, if_false] at hr
    refine ⟨hp, ?_⟩
    by_contra hlt
    rw [List.getElem?_eq_none (by omega)] at hr
    cases hr

theorem read_grow (h : ImHeap) (more : List ImDrawList) (extra : List Nat) (p : Nat)
    (hf : p ∉ h.freed) (hl : p < h.allocs.length) (he : p ∉ extra) :
    ImHeap.read { allocs := h.allocs ++ more, freed := h.freed ++ extra } p = h.read p := by
  simp [ImHeap.read, hf, he, List.getElem?_append_left hl]

theorem read_new (allocs : List ImDrawList) (fr : List Nat) (live : List ImDrawList)
    (hfr : ∀ p ∈ fr, p < allocs.length) :
    (List.range' allocs.length live.length).map (ImHeap.read { allocs := allocs ++ live, freed := fr })
      = live.map some := by
  apply List.ext_getElem
  · simp
  · intro i h1 h2
    have hi : i < live.length := by simpa using h2
    have hnot : allocs.length + i ∉ fr := fun hm => by have := hfr _ hm; omega
    simp [ImHeap.read, hnot, List.getElem?_append_right, hi]
    rw [List.getElem_append_right (by omega)]
    simp

/-! ### The pipeline invariant -/

theorem Stored_live {s0 : D3D12} {steps : List PipeStep} {h : ImHeap} {d : ImDrawData}
    (hs : d = ImDrawData.Clear ∨ Stored s0 steps h d) :
    ∀ p ∈ d.CmdLists, p ∉ h.freed ∧ p < h.allocs.length := by
  intro p hp
  rcases hs with hc | ⟨pre, live, post, -, -, hr⟩
  · subst hc
    simp [ImDrawData.Clear] at hp
  · have hm : h.read p ∈ d.CmdLists.map h.read := List.mem_map_of_mem _ hp
    rw [hr] at hm
    obtain ⟨x, -, hx⟩ := List.mem_map.1 hm
    exact read_eq_some hx.symm

theorem Stored_extend {s0 : D3D12} {steps : List PipeStep} {h h2 : ImHeap} {d : ImDrawData}
    (x : PipeStep) (hs : Stored s0 steps h d) (hr : ∀ p ∈ d.CmdLists, h2.read p = h.read p) :
    Stored s0 (steps ++ [x]) h2 d := by
  obtain ⟨pre, live, post, e1, e2, e3⟩ := hs
  refine ⟨pre, live, post ++ [x], by simp [e1], e2, ?_⟩
  rw [← e3]
  exact List.map_congr_left hr

theorem pipeline_snoc (s0 : D3D12) (steps : List PipeStep) (x : PipeStep) :
    s0.pipeline (steps ++ [x]) = (s0.pipeline steps).pipeStep x := by
  simp [D3D12.pipeline, List.foldl_append]

theorem PipeInv_init (s0 : D3D12) (hb : s0.m_imguiDrawDataBuffers = Buffers.empty)
    (hf : ∀ p ∈ s0.heap.freed, p < s0.heap.allocs.length) : PipeInv s0 [] s0 := by
  constructor <;> first | exact hf | simp [hb, Buffers.empty, ImDrawData.Clear]

theorem PipeInv_consume {s0 : D3D12} {steps : List PipeStep} {s : D3D12} (inv : PipeInv s0 steps s) :
    PipeInv s0 (steps ++ [PipeStep.Consume]) s.Consume := by
  have keep : ∀ d, (d = ImDrawData.Clear ∨ Stored s0 steps s.heap d) →
      (d = ImDrawData.Clear ∨ Stored s0 (steps ++ [PipeStep.Consume]) s.heap d) := by
    intro d hd
    rcases hd with h | h
    · exact Or.inl h
    · exact Or.inr (Stored_extend _ h (fun _ _ => rfl))
  by_cases hv : s.m_imguiDrawDataBuffers.b1.Valid = true
  · constructor
    · simpa [Consume_heap] using inv.freed_lt
    · rw [Consume_heap, Consume_buffers, if_pos hv]
      rcases keep _ inv.o1 with h | h
      · rw [h] at hv
        simp [ImDrawData.Clear] at hv
      · exact Or.inr ⟨hv, h⟩
    · rw [Consume_heap, Consume_buffers, if_pos hv]
      rcases inv.o0 with h | ⟨-, h⟩
      · left
        rw [h]
        rfl
      · right
        obtain ⟨pre, live, post, e1, e2, e3⟩ := Stored_extend PipeStep.Consume h (fun _ _ => rfl)
        exact ⟨pre, live, post, e1, e2, e3⟩
    · rw [Consume_heap, Consume_buffers, if_pos hv]
      exact keep _ inv.o2
    · rw [Consume_buffers, if_pos hv]
      intro p hp hq
      exact inv.d01 p hq hp
    · rw [Consume_buffers, if_pos hv]
      exact inv.d12
    · rw [Consume_buffers, if_pos hv]
      exact inv.d02
  · constructor
    · simpa [Consume_heap] using inv.freed_lt
    · rw [Consume_heap, Consume_buffers, if_neg hv]
      rcases inv.o0 with h | ⟨h1, h⟩
      · exact Or.inl h
      · exact Or.inr ⟨h1, Stored_extend _ h (fun _ _ => rfl)⟩
    · rw [Consume_heap, Consume_buffers, if_neg hv]
      exact keep _ inv.o1
    · rw [Consume_heap, Consume_buffers, if_neg hv]
      exact keep _ inv.o2
    · rw [Consume_buffers, if_neg hv]
      exact inv.d01
    · rw [Consume_buffers, if_neg hv]
      exact inv.d02
    · rw [Consume_buffers, if_neg hv]
      exact inv.d12

theorem PipeInv_prepare {s0 : D3D12} {steps : List PipeStep} {s : D3D12} (inv : PipeInv s0 steps s)
    (hs : s = s0.pipeline steps) (live : List ImDrawList) :
    PipeInv s0 (steps ++ [PipeStep.PrepareUpdate live]) (s.PrepareUpdateLocked live) := by
  have l0 := Stored_live (inv.o0.imp id And.right)
  have l1 := Stored_live inv.o1
  have l2 := Stored_live inv.o2
  have hold : ∀ p ∈ s.m_imguiDrawDataBuffers.b2.CmdLists.take s.m_imguiDrawDataBuffers.b2.CmdListsCount,
      p ∈ s.m_imguiDrawDataBuffers.b2.CmdLists := fun p hp => List.mem_of_mem_take hp
  have keep : ∀ d, (∀ p ∈ d.CmdLists, p ∉ s.m_imguiDrawDataBuffers.b2.CmdLists) →
      (d = ImDrawData.Clear ∨ Stored s0 steps s.heap d) →
      (d = ImDrawData.Clear ∨
        Stored s0 (steps ++ [PipeStep.PrepareUpdate live]) (s.PrepareUpdateLocked live).heap d) := by
    intro d hdis hd
    rcases hd with h | h
    · exact Or.inl h
    · refine Or.inr (Stored_extend _ h ?_)
      intro p hp
      have hl := Stored_live (Or.inr h) p hp
      rw [PrepareUpdateLocked_heap]
      exact read_grow _ _ _ _ hl.1 hl.2 (fun hm => hdis p hp (hold p hm))
  constructor
  · rw [PrepareUpdateLocked_heap]
    intro p hp
    simp only [List.mem_append] at hp
    simp only [List.length_append]
    rcases hp with hp | hp
    · have := inv.freed_lt p hp
      omega
    · have := (l2 p (hold p hp)).2
      omega
  · rw [PrepareUpdateLocked_buffers]
    rcases inv.o0 with h | ⟨h1, h⟩
    · exact Or.inl h
    · right
      refine ⟨h1, ?_⟩
      rcases keep _ inv.d02 (Or.inr h) with hc | hst
      · rw [hc] at h1
        simp [ImDrawData.Clear] at h1
      · exact hst
  · rw [PrepareUpdateLocked_buffers]
    right
    refine ⟨steps, live, [], rfl, ?_, ?_⟩
    · rw [← hs, PrepareUpdateLocked_buffers]
      rfl
    · rw [PrepareUpdateLocked_heap]
      apply read_new
      intro p hp
      simp only [List.mem_append] at hp
      rcases hp with hp | hp
      · exact inv.freed_lt p hp
      · exact (l2 p (hold p hp)).2
  · rw [PrepareUpdateLocked_buffers]
    exact keep _ inv.d12 inv.o1
  · rw [PrepareUpdateLocked_buffers]
    intro p hp hq
    have h1 := (l0 p hp).2
    simp [snapshotOf, List.mem_range'_1] at hq
    omega
  · rw [PrepareUpdateLocked_buffers]
    exact inv.d01
  · rw [PrepareUpdateLocked_buffers]
    intro p hp hq
    have h1 := (l1 p hq).2
    simp [snapshotOf, List.mem_range'_1] at hp
    omega

theorem PipeInv_pipeline (s0 : D3D12) (hb : s0.m_imguiDrawDataBuffers = Buffers.empty)
    (hf : ∀ p ∈ s0.heap.freed, p < s0.heap.allocs.length) (steps : List PipeStep) :
    PipeInv s0 steps (s0.pipeline steps) := by
  induction steps using List.reverseRecOn with
  | nil => exact PipeInv_init s0 hb hf
  | append_singleton l x ih =>
    rw [pipeline_snoc]
    cases x with
    | PrepareUpdate live => exact PipeInv_prepare ih rfl live
    | Consume => exact PipeInv_consume ih

/-! ### ResetState -/

theorem ResetState_buffers (s : D3D12) (b : Bool) :
    (s.ResetState b).1.m_imguiDrawDataBuffers =
      if s.m_initialized then Buffers.empty else s.m_imguiDrawDataBuffers := by
  cases h : s.m_initialized <;> simp [D3D12.ResetState, h]

theorem ResetState_twice (s : D3D12) (b1 b2 : Bool) :
    (s.ResetState b1).1.ResetState b2 = ((s.ResetState b1).1, false) := by
  cases h : s.m_initialized <;> simp [D3D12.ResetState, h]

/-! ### The parts of Initialize -/

theorem resizeContexts_length (xs : List FrameContext) (n : Nat) : (resizeContexts xs n).length = n := by
  simp [resizeContexts]
  omega

theorem createRenderTargets_length (env : InitEnv) (i h : Nat) (xs : List FrameContext) :
    (createRenderTargets env i h xs).length = xs.length := by
  induction xs generalizing i h with
  | nil => rfl
  | cons x xs ih => simp [createRenderTargets, ih]

theorem createCommandObjects_length (env : InitEnv) (i : Nat) (xs : List FrameContext) :
    (createCommandObjects env i xs).1.length = xs.length := by
  induction xs generalizing i with
  | nil => rfl
  | cons x xs ih =>
    simp only [createCommandObjects]
    split
    · rfl
    · split
      · rfl
      · split
        · simp [ih]
        · rfl

theorem InitializeImGui_fields (s : D3D12) (k : Nat) (env : InitEnv) :
    (s.InitializeImGui k env).1.m_initialized = s.m_initialized ∧
    (s.InitializeImGui k env).1.m_imguiDrawDataBuffers = s.m_imguiDrawDataBuffers ∧
    (s.InitializeImGui k env).1.m_frameContexts = s.m_frameContexts ∧
    (s.InitializeImGui k env).1.heap = s.heap := by
  cases hc : s.imgui.context <;> cases h1 : env.ImGui_ImplWin32_Init <;>
    cases h2 : env.ImGui_ImplDX12_Init <;> cases h3 : env.ImGui_ImplDX12_CreateDeviceObjects <;>
    simp [D3D12.InitializeImGui, D3D12.ReloadFonts, hc, h1, h2, h3]

theorem createCommandObjects_ok (env : InitEnv) (i : Nat) (xs : List FrameContext) :
    (createCommandObjects env i xs).2.2 = true ↔ ∀ j, j < xs.length → ¬ env.commandObjectsFail (i + j) := by
  induction xs generalizing i with
  | nil => simp [createCommandObjects]
  | cons x xs ih =>
    simp only [createCommandObjects]
    cases ha : env.CreateCommandAllocator i with
    | none =>
      simp only [Bool.false_eq_true, false_iff, not_forall]
      exact ⟨0, by simp, by simp [InitEnv.commandObjectsFail, ha]⟩
    | some a =>
      cases hl : env.CreateCommandList i with
      | none =>
        simp only [Bool.false_eq_true, false_iff, not_forall]
        exact ⟨0, by simp, by simp [InitEnv.commandObjectsFail, hl]⟩
      | some l =>
        cases hc : env.CommandList_Close i with
        | false =>
          simp only [Bool.false_eq_true, false_iff, not_forall, if_false]
          exact ⟨0, by simp, by simp [InitEnv.commandObjectsFail, hc]⟩
        | true =>
          simp only [if_true, ih]
          constructor
          · intro h j hj
            cases j with
            | zero => simp [InitEnv.commandObjectsFail, ha, hl, hc]
            | succ j =>
              have := h j (by simpa using hj)
              rwa [show i + 1 + j = i + (j + 1) by omega] at this
          · intro h j hj
            have := h (j + 1) (by simpa using hj)
            rwa [show i + (j + 1) = i + 1 + j by omega] at this

theorem InitializeImGui_ok (s : D3D12) (k : Nat) (env : InitEnv) :
    (s.InitializeImGui k env).2 = true ↔ ¬ env.imguiFails := by
  cases hc : s.imgui.context <;> cases h1 : env.ImGui_ImplWin32_Init <;>
    cases h2 : env.ImGui_ImplDX12_Init <;> cases h3 : env.ImGui_ImplDX12_CreateDeviceObjects <;>
    simp [D3D12.InitializeImGui, InitEnv.imguiFails, hc, h1, h2, h3]

theorem ResetState_of_not_initialized (s : D3D12) (b : Bool) (h : s.m_initialized = false) :
    (s.ResetState b).1.m_imguiDrawDataBuffers = s.m_imguiDrawDataBuffers ∧
    (s.ResetState b).1.heap = s.heap ∧ (s.ResetState b).1.imgui = s.imgui ∧
    (s.ResetState b).1.log = s.log := by
  simp [D3D12.ResetState, h]

theorem addFontBlockEvents_args (p c f : String) :
    dx12InitArgs (addFontBlockEvents p c f) = [] ∧ rtvHeapSizes (addFontBlockEvents p c f) = [] := by
  unfold addFontBlockEvents
  split_ifs <;> exact ⟨rfl, rfl⟩

theorem reloadFontsEvents_args (env : FontEnv) :
    dx12InitArgs (reloadFontsEvents env) = [] ∧ rtvHeapSizes (reloadFontsEvents env) = [] := by
  have e1 := addFontBlockEvents_args env.Font.Path (customFontPathOf env)
    (env.GetAbsolutePath (.name "NotoSans-Regular.ttf"))
  have e2 := addFontBlockEvents_args env.Font.Path (customFontPathOf env)
    (selectLanguage env (env.GetAbsolutePath (.name "NotoSans-Regular.ttf")) GlyphRanges.Default).1
  simp only [reloadFontsEvents, dx12InitArgs, rtvHeapSizes, List.filterMap_append] at e1 e2 ⊢
  rw [e1.1, e2.1, e1.2, e2.2]
  exact ⟨rfl, rfl⟩

theorem imguiOkEvents_args (c : Bool) (k : Nat) (env : InitEnv) :
    dx12InitArgs (imguiOkEvents c k env) = [k] ∧ rtvHeapSizes (imguiOkEvents c k env) = [] := by
  have e := reloadFontsEvents_args env.font
  simp only [imguiOkEvents, dx12InitArgs, rtvHeapSizes, List.filterMap_append] at e ⊢
  rw [e.1, e.2]
  cases c <;> exact ⟨rfl, rfl⟩

theorem createRenderTargetsEvents_args (n : Nat) :
    dx12InitArgs (createRenderTargetsEvents n) = [] ∧ rtvHeapSizes (createRenderTargetsEvents n) = [] := by
  unfold createRenderTargetsEvents
  induction n with
  | zero => exact ⟨rfl, rfl⟩
  | succ n ih =>
    rw [List.range_succ, List.flatMap_append]
    simp only [dx12InitArgs, rtvHeapSizes, List.filterMap_append] at ih ⊢
    rw [ih.1, ih.2]
    exact ⟨rfl, rfl⟩

theorem createCommandObjects_args (env : InitEnv) (i : Nat) (xs : List FrameContext) :
    dx12InitArgs (createCommandObjects env i xs).2.1 = [] ∧
      rtvHeapSizes (createCommandObjects env i xs).2.1 = [] := by
  induction xs generalizing i with
  | nil => exact ⟨rfl, rfl⟩
  | cons x xs ih =>
    simp only [createCommandObjects]
    split
    · exact ⟨rfl, rfl⟩
    · split
      · exact ⟨rfl, rfl⟩
      · split
        · have := ih (i + 1)
          simp only [dx12InitArgs, rtvHeapSizes, List.filterMap_append] at this ⊢
          rw [this.1, this.2]
          exact ⟨rfl, rfl⟩
        · exact ⟨rfl, rfl⟩

theorem ReloadFonts_log (s : D3D12) (env : FontEnv) :
    (s.ReloadFonts env).log = s.log ++ reloadFontsEvents env := by
  simp [D3D12.ReloadFonts, reloadFontsEvents]

theorem InitializeImGui_log (s : D3D12) (k : Nat) (env : InitEnv) (hok : ¬ env.imguiFails) :
    (s.InitializeImGui k env).1.log = s.log ++ imguiOkEvents s.imgui.context k env := by
  simp only [InitEnv.imguiFails, not_or, Bool.not_eq_false] at hok
  obtain ⟨h1, h2, h3⟩ := hok
  cases hc : s.imgui.context <;>
    simp [D3D12.InitializeImGui, ReloadFonts_log, imguiOkEvents, hc, h1, h2, h3]

theorem InitializeImGui_m_initialized (s : D3D12) (k : Nat) (env : InitEnv) :
    (s.InitializeImGui k env).1.m_initialized = s.m_initialized := (InitializeImGui_fields s k env).1

theorem InitializeImGui_buffers (s : D3D12) (k : Nat) (env : InitEnv) :
    (s.InitializeImGui k env).1.m_imguiDrawDataBuffers = s.m_imguiDrawDataBuffers :=
  (InitializeImGui_fields s k env).2.1

theorem InitializeImGui_frameContexts (s : D3D12) (k : Nat) (env : InitEnv) :
    (s.InitializeImGui k env).1.m_frameContexts = s.m_frameContexts := (InitializeImGui_fields s k env).2.2.1

theorem InitializeImGui_heap (s : D3D12) (k : Nat) (env : InitEnv) :
    (s.InitializeImGui k env).1.heap = s.heap := (InitializeImGui_fields s k env).2.2.2

theorem InitializeImGui_refs (s : D3D12) (k : Nat) (env : InitEnv) :
    (s.InitializeImGui k env).1.m_pdxgiSwapChain = s.m_pdxgiSwapChain ∧
    (s.InitializeImGui k env).1.m_pCommandQueue = s.m_pCommandQueue := by
  cases hc : s.imgui.context <;> cases h1 : env.ImGui_ImplWin32_Init <;>
    cases h2 : env.ImGui_ImplDX12_Init <;> cases h3 : env.ImGui_ImplDX12_CreateDeviceObjects <;>
    simp [D3D12.InitializeImGui, D3D12.ReloadFonts, hc, h1, h2, h3]

/-! ### Initialize -/

theorem Initialize_outcome (s : D3D12) (env : InitEnv) (h1 : s.m_initialized = false)
    (h2 : s.m_pdxgiSwapChain ≠ none) (h3 : env.hWnd ≠ 0) :
    (s.Initialize env).1.m_imguiDrawDataBuffers = s.m_imguiDrawDataBuffers ∧
    (s.Initialize env).1.heap = s.heap ∧
    ((env.fails ∧ ∃ X b, s.Initialize env = D3D12.ResetState X b) ∨
     (¬ env.fails ∧ (s.Initialize env).2 = true ∧ (s.Initialize env).1.m_initialized = true ∧
       (s.Initialize env).1.m_frameContexts.length = min env.sdesc.BufferCount 3 ∧
       (s.Initialize env).1.m_pdxgiSwapChain = s.m_pdxgiSwapChain ∧
       (s.Initialize env).1.m_pCommandQueue = s.m_pCommandQueue ∧
       ∃ tr, (s.Initialize env).1.log = s.log ++ tr ∧
         rtvHeapSizes tr = [min env.sdesc.BufferCount 3] ∧
         dx12InitArgs tr = [min env.sdesc.BufferCount 3])) := by
  obtain ⟨sc, hsc⟩ := Option.ne_none_iff_exists'.1 h2
  unfold D3D12.Initialize
  simp only [h1, hsc, h3, Bool.false_eq_true, if_false]
  cases hd : env.GetDevice with
  | none =>
    simp only
    refine ⟨?_, ?_, Or.inl ⟨Or.inl hd, _, _, rfl⟩⟩
    · exact (ResetState_of_not_initialized _ _ rfl).1
    · exact (ResetState_of_not_initialized _ _ rfl).2.1
  | some device =>
    simp only
    cases hs : env.CreateSrvDescHeap with
    | none =>
      simp only
      refine ⟨?_, ?_, Or.inl ⟨Or.inr (Or.inl hs), _, _, rfl⟩⟩
      · exact (ResetState_of_not_initialized _ _ rfl).1
      · exact (ResetState_of_not_initialized _ _ rfl).2.1
    | some srv =>
      simp only
      cases hr : env.CreateRtvDescHeap with
      | none =>
        simp only
        refine ⟨?_, ?_, Or.inl ⟨Or.inr (Or.inr (Or.inl hr)), _, _, rfl⟩⟩
        · exact (ResetState_of_not_initialized _ _ rfl).1
        · exact (ResetState_of_not_initialized _ _ rfl).2.1
      | some rtv =>
        simp only
        have hlen : (createRenderTargets env 0 env.rtvHeapStart
            (resizeContexts s.m_frameContexts (min env.sdesc.BufferCount 3))).length
              = min env.sdesc.BufferCount 3 := by
          rw [createRenderTargets_length, resizeContexts_length]
        have hco := createCommandObjects_ok env 0 (createRenderTargets env 0 env.rtvHeapStart
            (resizeContexts s.m_frameContexts (min env.sdesc.BufferCount 3)))
        rw [hlen] at hco
        simp only [Nat.zero_add] at hco
        by_cases hc : (createCommandObjects env 0 (createRenderTargets env 0 env.rtvHeapStart
            (resizeContexts s.m_frameContexts (min env.sdesc.BufferCount 3)))).2.2 = true
        · simp only [hc, Bool.not_true, Bool.false_eq_true, if_false]
          by_cases hg : env.imguiFails
          · have hgf : ∀ (X : D3D12) (k : Nat), (X.InitializeImGui k env).2 = false := by
              intro X k
              cases h : (X.InitializeImGui k env).2
              · rfl
              · exact absurd hg ((InitializeImGui_ok X k env).1 h)
            simp only [hgf, Bool.not_false, if_true]
            refine ⟨?_, ?_, Or.inl ⟨Or.inr (Or.inr (Or.inr (Or.inr hg))), _, _, rfl⟩⟩
            · rw [(ResetState_of_not_initialized _ _ (by simp [InitializeImGui_m_initialized])).1]
              simp [InitializeImGui_buffers]
            · rw [(ResetState_of_not_initialized _ _ (by simp [InitializeImGui_m_initialized])).2.1]
              simp [InitializeImGui_heap]
          · have hgt : ∀ (X : D3D12) (k : Nat), (X.InitializeImGui k env).2 = true :=
              fun X k => (InitializeImGui_ok X k env).2 hg
            simp only [hgt, Bool.not_true, Bool.false_eq_true, if_false]
            refine ⟨by simp [InitializeImGui_buffers], by simp [InitializeImGui_heap], Or.inr ⟨?_, by first | rfl | trivial, by first | rfl | trivial, ?_, ?_, ?_, ?_⟩⟩
            · intro hf
              rcases hf with hf | hf | hf | ⟨j, hj, hf⟩ | hf
              · rw [hd] at hf
                cases hf
              · rw [hs] at hf
                cases hf
              · rw [hr] at hf
                cases hf
              · exact hco.1 hc j hj hf
              · exact hg hf
            · simp only [InitializeImGui_frameContexts, createCommandObjects_length, hlen]
            · simp only [(InitializeImGui_refs _ _ _).1]
            · simp only [(InitializeImGui_refs _ _ _).2]
            · rw [InitializeImGui_log _ _ _ hg]
              simp only [List.append_assoc]
              have a1 := createRenderTargetsEvents_args (min env.sdesc.BufferCount 3)
              have a2 := createCommandObjects_args env 0 (createRenderTargets env 0 env.rtvHeapStart
                (resizeContexts s.m_frameContexts (min env.sdesc.BufferCount 3)))
              have a3 := imguiOkEvents_args s.imgui.context (min env.sdesc.BufferCount 3) env
              refine ⟨_, rfl, ?_, ?_⟩
              · simp only [rtvHeapSizes, List.filterMap_append] at a1 a2 a3 ⊢
                rw [a1.2, a2.2, a3.2]
                split_ifs <;> rfl
              · simp only [dx12InitArgs, List.filterMap_append] at a1 a2 a3 ⊢
                rw [a1.1, a2.1, a3.1]
                split_ifs <;> rfl
        · have hc2 : (createCommandObjects env 0 (createRenderTargets env 0 env.rtvHeapStart
            (resizeContexts s.m_frameContexts (min env.sdesc.BufferCount 3)))).2.2 = false := by
            simpa using hc
          simp only [hc2, Bool.not_false, if_true]
          refine ⟨?_, ?_, Or.inl ⟨Or.inr (Or.inr (Or.inr (Or.inl ?_))), _, _, rfl⟩⟩
          · exact (ResetState_of_not_initialized _ _ rfl).1
          · exact (ResetState_of_not_initialized _ _ rfl).2.1
          · by_contra hne
            apply hc
            rw [hco]
            intro j hj hf
            exact hne ⟨j, hj, hf⟩

theorem Initialize_of_initialized (s : D3D12) (env : InitEnv) (h : s.m_initialized = true) :
    s.Initialize env = (s, true) := by
  simp [D3D12.Initialize, h]

theorem Initialize_no_swapChain (s : D3D12) (env : InitEnv) (h1 : s.m_initialized = false)
    (h2 : s.m_pdxgiSwapChain = none) : s.Initialize env = (s, false) := by
  simp [D3D12.Initialize, h1, h2]

theorem Initialize_no_window (s : D3D12) (env : InitEnv) (h1 : s.m_initialized = false)
    (h2 : s.m_pdxgiSwapChain ≠ none) (h3 : env.hWnd = 0) :
    s.Initialize env = ({ s with log := s.log ++ [Event.LogWarn] }, false) := by
  obtain ⟨sc, hsc⟩ := Option.ne_none_iff_exists'.1 h2
  simp [D3D12.Initialize, h1, hsc, h3]

/-- A successful return from the initialising path needs a bound swapchain and a window. -/
theorem Initialize_true_pre (s : D3D12) (env : InitEnv) (h1 : s.m_initialized = false)
    (hok : (s.Initialize env).2 = true) : s.m_pdxgiSwapChain ≠ none ∧ env.hWnd ≠ 0 := by
  by_cases h2 : s.m_pdxgiSwapChain = none
  · rw [Initialize_no_swapChain s env h1 h2] at hok
    cases hok
  · refine ⟨h2, fun h3 => ?_⟩
    rw [Initialize_no_window s env h1 h2 h3] at hok
    cases hok

theorem Initialize_buffers_heap (s : D3D12) (env : InitEnv) :
    (s.Initialize env).1.m_imguiDrawDataBuffers = s.m_imguiDrawDataBuffers ∧
    (s.Initialize env).1.heap = s.heap := by
  cases h1 : s.m_initialized
  · by_cases h2 : s.m_pdxgiSwapChain = none
    · rw [Initialize_no_swapChain s env h1 h2]
      exact ⟨rfl, rfl⟩
    · by_cases h3 : env.hWnd = 0
      · rw [Initialize_no_window s env h1 h2 h3]
        exact ⟨rfl, rfl⟩
      · exact ⟨(Initialize_outcome s env h1 h2 h3).1, (Initialize_outcome s env h1 h2 h3).2.1⟩
  · rw [Initialize_of_initialized s env h1]
    exact ⟨rfl, rfl⟩

/-! ### Update and the gating invariant -/

theorem Update_ok (s : D3D12) (i : Nat) (s1 : D3D12) (h : s.Update i = .ok s1) :
    s1.m_initialized = s.m_initialized ∧
    s1.m_imguiDrawDataBuffers = s.Consume.m_imguiDrawDataBuffers ∧
    s1.m_frameContexts = s.m_frameContexts ∧ s1.heap = s.heap ∧
    (s1 = s.Consume ∨ (s.Consume.m_imguiDrawDataBuffers.b0.Valid = true ∧
      s1 = { s.Consume with log := s.Consume.log ++ submitEvents })) := by
  have hc : s.Consume.m_initialized = s.m_initialized ∧ s.Consume.m_frameContexts = s.m_frameContexts := by
    by_cases hv : s.m_imguiDrawDataBuffers.b1.Valid = true <;> simp [D3D12.Consume, hv]
  unfold D3D12.Update at h
  simp only at h
  split at h
  · cases h
    exact ⟨hc.1, rfl, hc.2, Consume_heap s, Or.inl rfl⟩
  · rename_i hv
    split at h
    · cases h
    · split at h
      · cases h
      · split at h
        · cases h
          exact ⟨hc.1, rfl, hc.2, Consume_heap s, Or.inr ⟨by simpa using hv, rfl⟩⟩
        · cases h

theorem Consume_of_pending_invalid (s : D3D12) (h : s.m_imguiDrawDataBuffers.b1.Valid = false) :
    s.Consume = { s with log := s.log ++ [Event.lockAcquire, Event.ImGui_ImplDX12_NewFrame, Event.lockRelease] } := by
  simp [D3D12.Consume, h]

theorem Update_of_empty (s : D3D12) (i : Nat) (h : s.m_imguiDrawDataBuffers = Buffers.empty) :
    s.Update i = .ok { s with log := s.log ++ [Event.lockAcquire, Event.ImGui_ImplDX12_NewFrame, Event.lockRelease] } := by
  have hv : s.m_imguiDrawDataBuffers.b1.Valid = false := by rw [h]; rfl
  unfold D3D12.Update
  rw [Consume_of_pending_invalid s hv]
  simp [h, Buffers.empty, ImDrawData.Clear]

theorem Gated_call {s t : D3D12} (c : Call) (hs : Gated s) (h : s.call c = some t) : Gated t := by
  cases c with
  | bind sc q =>
    simp only [D3D12.call, Option.some.injEq] at h
    subst h
    exact hs
  | Initialize env =>
    simp only [D3D12.call, Option.some.injEq] at h
    subst h
    intro hf
    rw [(Initialize_buffers_heap s env).1]
    apply hs
    cases h1 : s.m_initialized
    · rfl
    · rw [Initialize_of_initialized s env h1] at hf
      simp [h1] at hf
  | ResetState b =>
    simp only [D3D12.call, Option.some.injEq] at h
    subst h
    intro _
    rw [ResetState_buffers]
    cases h1 : s.m_initialized
    · simpa using hs h1
    · rfl
  | PrepareUpdate live =>
    simp only [D3D12.call, Option.some.injEq] at h
    subst h
    cases h1 : s.m_initialized
    · simpa [D3D12.PrepareUpdate, h1] using hs
    · intro hf
      simp [D3D12.PrepareUpdate, h1, D3D12.PrepareUpdateLocked] at hf
  | Update i =>
    simp only [D3D12.call] at h
    cases hu : s.Update i with
    | error e => simp [hu] at h
    | ok s1 =>
      simp only [hu, Option.some.injEq] at h
      subst h
      obtain ⟨e1, e2, -, -, -⟩ := Update_ok s i s1 hu
      intro hf
      rw [e1] at hf
      have hb := hs hf
      rw [e2, Consume_buffers, hb]
      rfl

theorem Gated_calls {s t : D3D12} (cs : List Call) (hs : Gated s) (h : s.calls cs = some t) : Gated t := by
  induction cs generalizing s with
  | nil =>
    simp only [D3D12.calls, Option.some.injEq] at h
    subst h
    exact hs
  | cons c cs ih =>
    simp only [D3D12.calls] at h
    cases hc : s.call c with
    | none => simp [hc] at h
    | some s1 =>
      simp only [hc] at h
      exact ih (Gated_call c hs hc) h

theorem Gated_init : Gated D3D12.init := fun _ => rfl

/-! ### Fonts -/

theorem addFontBlock_config (a b : String) (c : ImFontConfig) (r : GlyphRanges) :
    (addFontBlock a b c r).config = c := by
  unfold addFontBlock
  split_ifs <;> rfl

theorem baseFontConfig_PixelSnapH (f : FontSettings) (size : Int) :
    (baseFontConfig f size).PixelSnapH = decide (f.OversampleHorizontal = 1 ∧ f.OversampleVertical = 1) := by
  unfold baseFontConfig
  by_cases h : f.OversampleHorizontal = 1 ∧ f.OversampleVertical = 1
  · simp [h]
  · simp only [h, if_false, decide_False]

/-! ### The number of Frame Contexts -/

theorem Initialize_sized (s : D3D12) (env : InitEnv) (h1 : s.m_initialized = false)
    (ht : (s.Initialize env).1.m_initialized = true) :
    (s.Initialize env).1.m_frameContexts.length = min env.sdesc.BufferCount 3 := by
  by_cases h2 : s.m_pdxgiSwapChain = none
  · rw [Initialize_no_swapChain s env h1 h2] at ht
    simp [h1] at ht
  · by_cases h3 : env.hWnd = 0
    · rw [Initialize_no_window s env h1 h2 h3] at ht
      simp [h1] at ht
    · rcases (Initialize_outcome s env h1 h2 h3).2.2 with ⟨-, X, b, hX⟩ | ⟨-, -, -, hl, -⟩
      · rw [hX] at ht
        cases ht
      · exact hl

theorem Sized_call {n : Nat} {s t : D3D12} (c : Call) (hs : Sized n s)
    (hn : ∀ env, c = Call.Initialize env → env.sdesc.BufferCount = n)
    (h : s.call c = some t) : Sized n t := by
  cases c with
  | bind sc q =>
    simp only [D3D12.call, Option.some.injEq] at h
    subst h
    exact hs
  | Initialize env =>
    simp only [D3D12.call, Option.some.injEq] at h
    subst h
    intro ht
    cases h1 : s.m_initialized
    · rw [Initialize_sized s env h1 ht, hn env rfl]
    · rw [Initialize_of_initialized s env h1]
      exact hs h1
  | ResetState b =>
    simp only [D3D12.call, Option.some.injEq] at h
    subst h
    intro ht
    cases ht
  | PrepareUpdate live =>
    simp only [D3D12.call, Option.some.injEq] at h
    subst h
    cases h1 : s.m_initialized
    · simpa [D3D12.PrepareUpdate, h1] using hs
    · intro _
      simpa [D3D12.PrepareUpdate, h1, D3D12.PrepareUpdateLocked] using hs h1
  | Update i =>
    simp only [D3D12.call] at h
    cases hu : s.Update i with
    | error e => simp [hu] at h
    | ok s1 =>
      simp only [hu, Option.some.injEq] at h
      subst h
      obtain ⟨e1, -, e3, -, -⟩ := Update_ok s i s1 hu
      intro ht
      rw [e3]
      exact hs (e1 ▸ ht)

theorem Sized_calls {n : Nat} {s t : D3D12} (cs : List Call) (hs : Sized n s)
    (hn : ∀ env, Call.Initialize env ∈ cs → env.sdesc.BufferCount = n)
    (h : s.calls cs = some t) : Sized n t := by
  induction cs generalizing s with
  | nil =>
    simp only [D3D12.calls, Option.some.injEq] at h
    subst h
    exact hs
  | cons c cs ih =>
    simp only [D3D12.calls] at h
    cases hc : s.call c with
    | none => simp [hc] at h
    | some s1 =>
      simp only [hc] at h
      refine ih (Sized_call c hs (fun env he => hn env (by simp [he])) hc) (fun env he => hn env ?_) h
      exact List.mem_cons_of_mem _ he

/-! ### Events under the lock -/

theorem heldEvents_append_of_noLock (d : Nat) (l rest : List Event)
    (hl : ∀ e ∈ l, e ≠ Event.lockAcquire ∧ e ≠ Event.lockRelease) :
    heldEvents (d + 1) (l ++ rest) = l ++ heldEvents (d + 1) rest := by
  induction l with
  | nil => rfl
  | cons e es ih =>
    have he := hl e (List.mem_cons_self _ _)
    have hes : ∀ x ∈ es, x ≠ Event.lockAcquire ∧ x ≠ Event.lockRelease :=
      fun x hx => hl x (List.mem_cons_of_mem _ hx)
    rw [List.cons_append, List.cons_append]
    simp only [heldEvents, he.1, he.2, if_false, Nat.succ_pos, if_true]
    rw [ih hes]

theorem heldEvents_zero_of_noLock (l : List Event)
    (hl : ∀ e ∈ l, e ≠ Event.lockAcquire ∧ e ≠ Event.lockRelease) :
    heldEvents 0 l = [] := by
  induction l with
  | nil => rfl
  | cons e es ih =>
    have he := hl e (List.mem_cons_self _ _)
    have hes : ∀ x ∈ es, x ≠ Event.lockAcquire ∧ x ≠ Event.lockRelease :=
      fun x hx => hl x (List.mem_cons_of_mem _ hx)
    simp only [heldEvents, he.1, he.2, if_false, Nat.lt_irrefl, ih hes]

theorem Consume_log (s : D3D12) :
    s.Consume.log = s.log ++
      ([Event.lockAcquire, Event.ImGui_ImplDX12_NewFrame] ++
        (if s.m_imguiDrawDataBuffers.b1.Valid then [Event.slotSwap 0 1, Event.slotInvalidate 1] else []) ++
        [Event.lockRelease]) := by
  by_cases hv : s.m_imguiDrawDataBuffers.b1.Valid = true <;> simp [D3D12.Consume, hv]

theorem PrepareUpdateLocked_log (s : D3D12) (live : List ImDrawList) :
    (s.PrepareUpdateLocked live).log = s.log ++
      (Event.lockAcquire ::
        ([Event.ImGui_ImplWin32_NewFrame, Event.ImGui_NewFrame, Event.Overlay_Update, Event.VM_Draw,
            Event.ImGui_Render]
          ++ (s.m_imguiDrawDataBuffers.b2.CmdLists.take s.m_imguiDrawDataBuffers.b2.CmdListsCount).map
              Event.IM_DELETE
          ++ [Event.slotClear 2, Event.slotStore 2]
          ++ (List.range' s.heap.allocs.length live.length).map Event.CloneOutput
          ++ [Event.slotSwap 1 2])
        ++ [Event.lockRelease]) := by
  simp [D3D12.PrepareUpdateLocked, cloneAll_eq, deleteAll_eq]

theorem baseFontConfig_SizePixels (f : FontSettings) (size : Int) :
    (baseFontConfig f size).SizePixels = size := by
  by_cases h : f.OversampleHorizontal = 1 ∧ f.OversampleVertical = 1 <;> simp [baseFontConfig, h]

theorem heldEvents_acquire (d : Nat) (es : List Event) :
    heldEvents d (Event.lockAcquire :: es) = heldEvents (d + 1) es := by
  simp [heldEvents]

/-! ## The draw-data pipeline -/

/-- C1: in the pipeline of three slots with the atomic steps `PrepareUpdate` (body) and the
locked consume block of `Update`, run in any order from a state whose slots are all
cleared, slot 0 is either invalid and empty, or it is exactly the snapshot that one of the
earlier `PrepareUpdate` steps stored and its command lists read as the contents that step
cloned; and no command list of a valid slot 0 has been freed. -/
theorem C1_active_slot_is_a_published_snapshot (s0 : D3D12) (steps : List PipeStep)
    (hb : s0.m_imguiDrawDataBuffers = Buffers.empty)
    (hf : ∀ p ∈ s0.heap.freed, p < s0.heap.allocs.length) :
    (((s0.pipeline steps).m_imguiDrawDataBuffers.b0.Valid = false ∧
        (s0.pipeline steps).m_imguiDrawDataBuffers.b0.CmdLists = []) ∨
      (∃ pre live post, steps = pre ++ PipeStep.PrepareUpdate live :: post ∧
        (s0.pipeline steps).m_imguiDrawDataBuffers.b0 =
          ((s0.pipeline pre).PrepareUpdateLocked live).m_imguiDrawDataBuffers.b1 ∧
        (s0.pipeline steps).m_imguiDrawDataBuffers.b0.CmdLists.map (s0.pipeline steps).heap.read =
          live.map some)) ∧
    ((s0.pipeline steps).m_imguiDrawDataBuffers.b0.Valid = true →
      ∀ p ∈ (s0.pipeline steps).m_imguiDrawDataBuffers.b0.CmdLists, p ∉ (s0.pipeline steps).heap.freed) := by
  have inv := PipeInv_pipeline s0 hb hf steps
  constructor
  · rcases inv.o0 with h | ⟨hv, pre, live, post, e1, e2, e3⟩
    · left
      rw [h]
      exact ⟨rfl, rfl⟩
    · right
      refine ⟨pre, live, post, e1, ?_, e3⟩
      rw [← e2]
      cases hd : (s0.pipeline steps).m_imguiDrawDataBuffers.b0
      rw [hd] at hv
      simp only at hv
      rw [hv]
  · intro _ p hp
    exact (Stored_live (inv.o0.imp id And.right) p hp).1

/-- C1 at a concrete run: one frame published, then consumed. -/
theorem C1_active_slot_is_a_published_snapshot_witness :
    D3D12.init.m_imguiDrawDataBuffers = Buffers.empty ∧
    (∀ p ∈ D3D12.init.heap.freed, p < D3D12.init.heap.allocs.length) ∧
    (D3D12.init.pipeline [PipeStep.PrepareUpdate [sampleDrawList], PipeStep.Consume]).m_imguiDrawDataBuffers.b0.Valid
      = true ∧
    ∀ p ∈ (D3D12.init.pipeline
        [PipeStep.PrepareUpdate [sampleDrawList], PipeStep.Consume]).m_imguiDrawDataBuffers.b0.CmdLists,
      p ∉ (D3D12.init.pipeline [PipeStep.PrepareUpdate [sampleDrawList], PipeStep.Consume]).heap.freed :=
  ⟨rfl, by simp [D3D12.init], by decide,
    (C1_active_slot_is_a_published_snapshot D3D12.init
      [PipeStep.PrepareUpdate [sampleDrawList], PipeStep.Consume] rfl (by simp [D3D12.init])).2 (by decide)⟩

/-- C6: the consume step applied twice in a row leaves slot 0 as the first application left
it; two consecutive `Update` calls leave slot 0 (contents and validity flag) as the first
left it, and a valid slot 0 is submitted again by the second; and whenever slot 1 is
invalid the consume step leaves all three slots unchanged. -/
theorem C6_consume_without_publish_keeps_active (s : D3D12) :
    s.Consume.Consume.m_imguiDrawDataBuffers = s.Consume.m_imguiDrawDataBuffers ∧
    (∀ i j s1 s2, s.Update i = .ok s1 → s1.Update j = .ok s2 →
      s1.Consume.m_imguiDrawDataBuffers.b0 = s1.m_imguiDrawDataBuffers.b0 ∧
      s2.m_imguiDrawDataBuffers.b0 = s1.m_imguiDrawDataBuffers.b0 ∧
      (s1.m_imguiDrawDataBuffers.b0.Valid = true →
        s2.log = s1.log ++ [Event.lockAcquire, Event.ImGui_ImplDX12_NewFrame, Event.lockRelease]
                   ++ submitEvents)) ∧
    (s.m_imguiDrawDataBuffers.b1.Valid = false →
      s.Consume.m_imguiDrawDataBuffers = s.m_imguiDrawDataBuffers) := by
  have after : s.Consume.m_imguiDrawDataBuffers.b1.Valid = false := by
    rw [Consume_buffers]
    by_cases hv : s.m_imguiDrawDataBuffers.b1.Valid = true
    · rw [if_pos hv]
    · rw [if_neg hv]
      simpa using hv
  refine ⟨?_, ?_, ?_⟩
  · rw [Consume_of_pending_invalid _ after]
  · intro i j s1 s2 h1 h2
    obtain ⟨-, e1, -, -, -⟩ := Update_ok s i s1 h1
    obtain ⟨-, e2, -, -, e3⟩ := Update_ok s1 j s2 h2
    have hp : s1.m_imguiDrawDataBuffers.b1.Valid = false := by rw [e1]; exact after
    have hc := Consume_of_pending_invalid s1 hp
    refine ⟨by rw [hc], by rw [e2, hc], ?_⟩
    intro hv
    rcases e3 with e3 | ⟨-, e3⟩
    · exfalso
      have h2c := h2
      unfold D3D12.Update at h2c
      rw [hc] at h2c e3
      simp only [hv, Bool.not_true, Bool.false_eq_true, if_false] at h2c
      have hl := congrArg D3D12.log e3
      split at h2c
      · cases h2c
      · split at h2c
        · cases h2c
        · split at h2c
          · cases h2c
            simp [submitEvents] at hl
          · cases h2c
    · rw [e3, hc]
  · intro hv
    rw [Consume_of_pending_invalid s hv]

/-- C6 at a concrete run: a frame is published, then `Update` runs twice. -/
theorem C6_consume_without_publish_keeps_active_witness :
    (samplePublished 3).Update 0 = .ok sampleUpdated1 ∧ sampleUpdated1.Update 1 = .ok sampleUpdated2 ∧
    sampleUpdated1.m_imguiDrawDataBuffers.b0.Valid = true ∧
    sampleUpdated2.m_imguiDrawDataBuffers.b0 = sampleUpdated1.m_imguiDrawDataBuffers.b0 :=
  ⟨rfl, rfl, by decide,
    ((C6_consume_without_publish_keeps_active (samplePublished 3)).2.1 0 1 sampleUpdated1 sampleUpdated2
      rfl rfl).2.1⟩

/-! ## ResetState and Initialize -/

/-- C5: `ResetState` returns false and leaves the flag false, no Frame Context, output size
(0,0) and every device, heap, queue and swapchain reference null; a second `ResetState`
right after it returns false and leaves the whole state, event log and freed list
included, exactly as the first left it (no backend is shut down and no draw list freed a
second time); and in every state the object can reach, the three slots are cleared after
the first call. -/
theorem C5_ResetState_idempotent (s : D3D12) (b1 b2 : Bool) :
    (s.ResetState b1).2 = false ∧
    (s.ResetState b1).1.m_initialized = false ∧
    (s.ResetState b1).1.m_frameContexts = [] ∧
    (s.ResetState b1).1.m_outSize = (0, 0) ∧
    (s.ResetState b1).1.m_pd3d12Device = none ∧
    (s.ResetState b1).1.m_pd3dRtvDescHeap = none ∧
    (s.ResetState b1).1.m_pd3dSrvDescHeap = none ∧
    (s.ResetState b1).1.m_pCommandQueue = none ∧
    (s.ResetState b1).1.m_pdxgiSwapChain = none ∧
    (s.ResetState b1).1.ResetState b2 = ((s.ResetState b1).1, false) ∧
    (∀ cs, D3D12.init.calls cs = some s →
      (s.ResetState b1).1.m_imguiDrawDataBuffers = Buffers.empty) := by
  refine ⟨rfl, rfl, rfl, rfl, rfl, rfl, rfl, rfl, rfl, ResetState_twice s b1 b2, ?_⟩
  intro cs hcs
  have hg : Gated s := Gated_calls cs Gated_init hcs
  rw [ResetState_buffers]
  cases h : s.m_initialized
  · simpa using hg h
  · rfl

/-- C5 at a concrete state: the initialised object with one frame rendered. -/
theorem C5_ResetState_idempotent_witness :
    D3D12.init.calls (sampleCalls.take 4) = some sampleUpdated1 ∧
    (sampleUpdated1.ResetState true).1.m_imguiDrawDataBuffers = Buffers.empty :=
  ⟨rfl, (C5_ResetState_idempotent sampleUpdated1 true false).2.2.2.2.2.2.2.2.2.2 (sampleCalls.take 4) rfl⟩

/-- C10: in every state reached from the never-initialised object by calls of `Initialize`,
`ResetState`, `PrepareUpdate` and `Update` (and by the hook layer storing a swapchain),
when the flag is false the three slots are invalid, `PrepareUpdate` leaves the state
unchanged, and `Update` only takes the lock, calls the backend's new-frame function and
releases the lock: it reaches neither the swapchain assertion nor the Frame Context lookup
and touches no command list. -/
theorem C10_flag_gates_frame_operations (cs : List Call) (s : D3D12)
    (hcs : D3D12.init.calls cs = some s) (hf : s.m_initialized = false) :
    s.m_imguiDrawDataBuffers.b0.Valid = false ∧
    s.m_imguiDrawDataBuffers.b1.Valid = false ∧
    s.m_imguiDrawDataBuffers.b2.Valid = false ∧
    (∀ live, s.PrepareUpdate live = s) ∧
    (∀ i, s.Update i =
      .ok { s with log := s.log ++ [Event.lockAcquire, Event.ImGui_ImplDX12_NewFrame, Event.lockRelease] }) := by
  have hb : s.m_imguiDrawDataBuffers = Buffers.empty := Gated_calls cs Gated_init hcs hf
  refine ⟨by rw [hb]; rfl, by rw [hb]; rfl, by rw [hb]; rfl, ?_, ?_⟩
  · intro live
    simp [D3D12.PrepareUpdate, hf]
  · intro i
    exact Update_of_empty s i hb

/-- C10 at a concrete state: the object after initialisation, one frame and a shutdown. -/
theorem C10_flag_gates_frame_operations_witness :
    D3D12.init.calls sampleCalls = some sampleShutDown ∧ sampleShutDown.m_initialized = false ∧
    sampleShutDown.PrepareUpdate [sampleDrawList] = sampleShutDown ∧
    sampleShutDown.Update 0 =
      .ok { sampleShutDown with
            log := sampleShutDown.log ++
              [Event.lockAcquire, Event.ImGui_ImplDX12_NewFrame, Event.lockRelease] } :=
  ⟨rfl, rfl,
    (C10_flag_gates_frame_operations sampleCalls sampleShutDown rfl rfl).2.2.2.1 [sampleDrawList],
    (C10_flag_gates_frame_operations sampleCalls sampleShutDown rfl rfl).2.2.2.2 0⟩

/-- C3: a call of `Initialize` that starts with the flag false, a bound swapchain and a
window handle, and in which an internal step fails, returns false and leaves the flag
false, no Frame Context, output size (0,0), and the device, both descriptor heaps, the
command queue and the swapchain released. -/
theorem C3_failed_Initialize_rolls_back (s : D3D12) (env : InitEnv)
    (h1 : s.m_initialized = false) (h2 : s.m_pdxgiSwapChain ≠ none) (h3 : env.hWnd ≠ 0)
    (hfail : env.fails) :
    (s.Initialize env).2 = false ∧
    (s.Initialize env).1.m_initialized = false ∧
    (s.Initialize env).1.m_frameContexts = [] ∧
    (s.Initialize env).1.m_outSize = (0, 0) ∧
    (s.Initialize env).1.m_pd3d12Device = none ∧
    (s.Initialize env).1.m_pd3dRtvDescHeap = none ∧
    (s.Initialize env).1.m_pd3dSrvDescHeap = none ∧
    (s.Initialize env).1.m_pCommandQueue = none ∧
    (s.Initialize env).1.m_pdxgiSwapChain = none := by
  rcases (Initialize_outcome s env h1 h2 h3).2.2 with ⟨-, X, b, hX⟩ | ⟨hnot, -⟩
  · rw [hX]
    exact ⟨rfl, rfl, rfl, rfl, rfl, rfl, rfl, rfl, rfl⟩
  · exact absurd hfail hnot

/-- C3 at a concrete call: creating the RTV heap fails. -/
theorem C3_failed_Initialize_rolls_back_witness :
    sampleBound.m_initialized = false ∧ sampleBound.m_pdxgiSwapChain ≠ none ∧ failingEnv.hWnd ≠ 0 ∧
    failingEnv.fails ∧
    (sampleBound.Initialize failingEnv).2 = false ∧
    (sampleBound.Initialize failingEnv).1.m_frameContexts = [] ∧
    (sampleBound.Initialize failingEnv).1.m_pdxgiSwapChain = none :=
  ⟨rfl, by decide, by decide, Or.inr (Or.inr (Or.inl rfl)),
    (C3_failed_Initialize_rolls_back sampleBound failingEnv rfl (by decide) (by decide)
      (Or.inr (Or.inr (Or.inl rfl)))).1,
    (C3_failed_Initialize_rolls_back sampleBound failingEnv rfl (by decide) (by decide)
      (Or.inr (Or.inr (Or.inl rfl)))).2.2.1,
    (C3_failed_Initialize_rolls_back sampleBound failingEnv rfl (by decide) (by decide)
      (Or.inr (Or.inr (Or.inl rfl)))).2.2.2.2.2.2.2.2⟩

/-- C4: an `Initialize` that starts uninitialised and returns true leaves exactly
`min n 3` Frame Contexts for a swapchain of `n` buffers (3 when `n ≥ 3`, `n` when `n < 3`),
creates one RTV heap of that size and passes that number to `ImGui_ImplDX12_Init`; and in
every state reached by calls whose `Initialize` all saw `n` buffers, an `Initialize` that
returns true leaves `min n 3` Frame Contexts, also when it returns early. -/
theorem C4_frame_context_count (s : D3D12) (env : InitEnv) (hok : (s.Initialize env).2 = true) :
    (s.m_initialized = false →
      (s.Initialize env).1.m_frameContexts.length = min env.sdesc.BufferCount 3 ∧
      (3 ≤ env.sdesc.BufferCount → (s.Initialize env).1.m_frameContexts.length = 3) ∧
      (env.sdesc.BufferCount < 3 → (s.Initialize env).1.m_frameContexts.length = env.sdesc.BufferCount) ∧
      rtvHeapSizes ((s.Initialize env).1.log.drop s.log.length) = [min env.sdesc.BufferCount 3] ∧
      dx12InitArgs ((s.Initialize env).1.log.drop s.log.length) = [min env.sdesc.BufferCount 3]) ∧
    (∀ cs, D3D12.init.calls cs = some s →
      (∀ e, Call.Initialize e ∈ cs → e.sdesc.BufferCount = env.sdesc.BufferCount) →
      (s.Initialize env).1.m_frameContexts.length = min env.sdesc.BufferCount 3) := by
  constructor
  · intro h1
    obtain ⟨h2, h3⟩ := Initialize_true_pre s env h1 hok
    rcases (Initialize_outcome s env h1 h2 h3).2.2 with ⟨-, X, b, hX⟩ | ⟨-, -, -, hl, -, -, tr, e1, e2, e3⟩
    · rw [hX] at hok
      cases hok
    · refine ⟨hl, fun h => ?_, fun h => ?_, ?_, ?_⟩
      · rw [hl]
        omega
      · rw [hl]
        omega
      · rw [e1, List.drop_left]
        exact e2
      · rw [e1, List.drop_left]
        exact e3
  · intro cs hcs hn
    have hz : Sized env.sdesc.BufferCount s :=
      Sized_calls cs (fun h => by cases h) hn hcs
    cases h1 : s.m_initialized
    · obtain ⟨h2, h3⟩ := Initialize_true_pre s env h1 hok
      rcases (Initialize_outcome s env h1 h2 h3).2.2 with ⟨-, X, b, hX⟩ | ⟨-, -, -, hl, -⟩
      · rw [hX] at hok
        cases hok
      · exact hl
    · rw [Initialize_of_initialized s env h1]
      exact hz h1

/-- C4 at concrete calls: four buffers give three Frame Contexts, two buffers give two. -/
theorem C4_frame_context_count_witness :
    (sampleBound.Initialize (sampleEnv 4)).2 = true ∧
    (sampleBound.Initialize (sampleEnv 4)).1.m_frameContexts.length = 3 ∧
    (sampleBound.Initialize (sampleEnv 2)).1.m_frameContexts.length = 2 :=
  ⟨rfl, ((C4_frame_context_count sampleBound (sampleEnv 4) rfl).1 rfl).2.1 (by decide),
    ((C4_frame_context_count sampleBound (sampleEnv 2) rfl).1 rfl).2.2.1 (by decide)⟩

/-! ## ReloadFonts -/

/-- C8: `ReloadFonts` adds three fonts, and the configuration each is added with has pixel
snapping enabled exactly when `OversampleHorizontal` and `OversampleVertical` are both 1. -/
theorem C8_pixel_snapping_iff_no_oversampling (s : D3D12) (env : FontEnv) :
    ((s.ReloadFonts env).imgui.Fonts.map fun f => f.config.PixelSnapH) =
        List.replicate 3 (decide (env.Font.OversampleHorizontal = 1 ∧ env.Font.OversampleVertical = 1)) ∧
    ((baseFontConfig env.Font env.SizePixels).PixelSnapH = true ↔
        env.Font.OversampleHorizontal = 1 ∧ env.Font.OversampleVertical = 1) := by
  constructor
  · simp only [D3D12.ReloadFonts, reloadedFonts, List.map, addFontBlock_config,
      baseFontConfig_PixelSnapH, List.replicate]
    simp only [FontAdd.config, baseFontConfig_PixelSnapH]
  · rw [baseFontConfig_PixelSnapH]
    simp

/-- C7 (as stated, refuted): with `Language = "Japanese"` and a custom font path that is
found, the language font merged into the atlas is loaded from the custom font file, not
from NotoSansJP-Regular.otf. -/
theorem C7_custom_font_replaces_language_font :
    customJapaneseEnv.Font.Language = "Japanese" ∧
    (D3D12.init.ReloadFonts customJapaneseEnv).imgui.Fonts[1]? =
      some (FontAdd.AddFontFromFileTTF "fonts/Custom.ttf" 21
        { SizePixels := 21, OversampleH := 2, OversampleV := 1, PixelSnapH := false, MergeMode := true,
          GlyphMinAdvanceX := 0 } GlyphRanges.Japanese) ∧
    ¬ ∃ size config, (D3D12.init.ReloadFonts customJapaneseEnv).imgui.Fonts[1]? =
      some (FontAdd.AddFontFromFileTTF
        (customJapaneseEnv.GetAbsolutePath (PathArg.inFonts "NotoSansJP-Regular.otf")) size config
        GlyphRanges.Japanese) := by
  refine ⟨rfl, by decide, ?_⟩
  rintro ⟨size, config, h⟩
  have h2 : (D3D12.init.ReloadFonts customJapaneseEnv).imgui.Fonts[1]? =
      some (FontAdd.AddFontFromFileTTF "fonts/Custom.ttf" 21
        { SizePixels := 21, OversampleH := 2, OversampleV := 1, PixelSnapH := false, MergeMode := true,
          GlyphMinAdvanceX := 0 } GlyphRanges.Japanese) := by decide
  rw [h2] at h
  injection h with h
  injection h with h
  revert h
  decide

/-- C7 (amended): for every locale, `Language = "Japanese"` selects the Japanese glyph
range and the path of NotoSansJP-Regular.otf; the merged language font is loaded from that
file when no custom font path resolves and the file is found, and from the custom font
file, with the Japanese range, when a custom font path resolves. An empty `Language` with
the Korean locale selects the Korean range. A `Language` outside the seven recognised
values with a locale outside the listed ones leaves the default range and the default font
path selected. -/
theorem C7_language_resolution (s : D3D12) (env : FontEnv) :
    (env.Font.Language = "Japanese" →
      selectLanguage env (env.GetAbsolutePath (PathArg.name "NotoSans-Regular.ttf")) GlyphRanges.Default =
        (env.GetAbsolutePath (PathArg.inFonts "NotoSansJP-Regular.otf"), GlyphRanges.Japanese) ∧
      (customFontPathOf env = "" → env.GetAbsolutePath (PathArg.inFonts "NotoSansJP-Regular.otf") ≠ "" →
        (s.ReloadFonts env).imgui.Fonts[1]? =
          some (FontAdd.AddFontFromFileTTF (env.GetAbsolutePath (PathArg.inFonts "NotoSansJP-Regular.otf"))
            env.SizePixels { baseFontConfig env.Font env.SizePixels with MergeMode := true }
            GlyphRanges.Japanese)) ∧
      (customFontPathOf env ≠ "" →
        (s.ReloadFonts env).imgui.Fonts[1]? =
          some (FontAdd.AddFontFromFileTTF (customFontPathOf env)
            env.SizePixels { baseFontConfig env.Font env.SizePixels with MergeMode := true }
            GlyphRanges.Japanese))) ∧
    (env.Font.Language = "" → env.GetSystemDefaultLangID = MAKELANGID LANG_KOREAN SUBLANG_DEFAULT →
      (selectLanguage env (env.GetAbsolutePath (PathArg.name "NotoSans-Regular.ttf")) GlyphRanges.Default).2 =
        GlyphRanges.Korean) ∧
    (env.Font.Language ∉ recognisedLanguages → env.GetSystemDefaultLangID ∉ listedLangIDs →
      selectLanguage env (env.GetAbsolutePath (PathArg.name "NotoSans-Regular.ttf")) GlyphRanges.Default =
        (env.GetAbsolutePath (PathArg.name "NotoSans-Regular.ttf"), GlyphRanges.Default)) := by
  refine ⟨?_, ?_, ?_⟩
  · intro hj
    have hsel : selectLanguage env (env.GetAbsolutePath (PathArg.name "NotoSans-Regular.ttf"))
        GlyphRanges.Default =
        (env.GetAbsolutePath (PathArg.inFonts "NotoSansJP-Regular.otf"), GlyphRanges.Japanese) := by
      simp [selectLanguage, hj]
    refine ⟨hsel, ?_, ?_⟩
    · intro hc hp
      simp [D3D12.ReloadFonts, reloadedFonts, hsel, addFontBlock, hc, hp, baseFontConfig_SizePixels]
    · intro hc
      simp [D3D12.ReloadFonts, reloadedFonts, hsel, addFontBlock, hc, baseFontConfig_SizePixels]
  · intro hl hk
    simp [selectLanguage, selectByLocale, hl, hk, MAKELANGID, LANG_KOREAN, LANG_CHINESE, LANG_JAPANESE,
      SUBLANG_DEFAULT, SUBLANG_CHINESE_TRADITIONAL, SUBLANG_CHINESE_SIMPLIFIED]
  · intro hl hk
    simp only [recognisedLanguages, List.mem_cons, List.mem_singleton, List.not_mem_nil, or_false,
      not_or] at hl
    simp only [listedLangIDs, List.mem_cons, List.mem_singleton, List.not_mem_nil, or_false,
      not_or] at hk
    obtain ⟨l1, l2, l3, l4, l5, l6, l7⟩ := hl
    obtain ⟨k1, k2, k3, k4, k5, k6, k7, k8⟩ := hk
    simp [selectLanguage, selectByLocale, l1, l2, l3, l4, l5, l6, l7, k1, k2, k3, k4, k5, k6, k7, k8]

/-- C7 (amended) at concrete inputs: explicit Japanese on a Korean locale with a custom
font, and no override on a Japanese locale. -/
theorem C7_language_resolution_witness :
    customJapaneseEnv.Font.Language = "Japanese" ∧ customFontPathOf customJapaneseEnv ≠ "" ∧
    selectLanguage customJapaneseEnv (customJapaneseEnv.GetAbsolutePath (PathArg.name "NotoSans-Regular.ttf"))
        GlyphRanges.Default =
      (customJapaneseEnv.GetAbsolutePath (PathArg.inFonts "NotoSansJP-Regular.otf"), GlyphRanges.Japanese) ∧
    (D3D12.init.ReloadFonts customJapaneseEnv).imgui.Fonts[1]? =
      some (FontAdd.AddFontFromFileTTF (customFontPathOf customJapaneseEnv)
        customJapaneseEnv.SizePixels
        { baseFontConfig customJapaneseEnv.Font customJapaneseEnv.SizePixels with MergeMode := true }
        GlyphRanges.Japanese) :=
  ⟨rfl, by decide,
    ((C7_language_resolution D3D12.init customJapaneseEnv).1 rfl).1,
    ((C7_language_resolution D3D12.init customJapaneseEnv).1 rfl).2.2 (by decide)⟩

/-! ## The lock -/

/-- C9 (as stated, refuted): in the trace of one `PrepareUpdate` on the initialised object
the overlay update, the script draw, the UI frame build and a draw-list clone all occur
while the lock is held, and in the trace of the consume block of `Update` the backend's
new-frame call does; none of them is a slot or validity-flag swap. -/
theorem C9_lock_held_across_layout_and_copy :
    Event.Overlay_Update ∈ heldEvents 0 ((samplePublished 3).log.drop (sampleReady 3).log.length) ∧
    Event.VM_Draw ∈ heldEvents 0 ((samplePublished 3).log.drop (sampleReady 3).log.length) ∧
    Event.ImGui_NewFrame ∈ heldEvents 0 ((samplePublished 3).log.drop (sampleReady 3).log.length) ∧
    Event.CloneOutput 0 ∈ heldEvents 0 ((samplePublished 3).log.drop (sampleReady 3).log.length) ∧
    Event.ImGui_ImplDX12_NewFrame ∈
      heldEvents 0 ((samplePublished 3).Consume.log.drop (samplePublished 3).log.length) ∧
    ¬ (∀ e ∈ heldEvents 0 ((samplePublished 3).log.drop (sampleReady 3).log.length),
        e.isSlotSwap = true) ∧
    ¬ (∀ e ∈ heldEvents 0 ((samplePublished 3).Consume.log.drop (samplePublished 3).log.length),
        e.isSlotSwap = true) := by
  decide

/-- C9 (amended): in `Update` the lock is held across the backend's new-frame call and the
swap of slots 0 and 1 with the clearing of slot 1's validity flag, and across nothing
else: the Frame Context lookup and every command-list and queue call come after the
release. In `PrepareUpdate` on an initialised object the lock is held for the whole body:
the UI frame build, overlay update, script draw, render, the freeing of the old clones,
the deep copies and the swap of slots 1 and 2 all occur while it is held. -/
theorem C9_lock_scope (s : D3D12) :
    heldEvents 0 (s.Consume.log.drop s.log.length) =
      Event.ImGui_ImplDX12_NewFrame ::
        (if s.m_imguiDrawDataBuffers.b1.Valid then [Event.slotSwap 0 1, Event.slotInvalidate 1] else []) ∧
    (∀ i s1, s.Update i = .ok s1 →
      heldEvents 0 (s1.log.drop s.log.length) =
        Event.ImGui_ImplDX12_NewFrame ::
          (if s.m_imguiDrawDataBuffers.b1.Valid then [Event.slotSwap 0 1, Event.slotInvalidate 1] else [])) ∧
    (∀ live, s.m_initialized = true →
      heldEvents 0 ((s.PrepareUpdate live).log.drop s.log.length) =
        [Event.ImGui_ImplWin32_NewFrame, Event.ImGui_NewFrame, Event.Overlay_Update, Event.VM_Draw,
            Event.ImGui_Render]
          ++ (s.m_imguiDrawDataBuffers.b2.CmdLists.take s.m_imguiDrawDataBuffers.b2.CmdListsCount).map
              Event.IM_DELETE
          ++ [Event.slotClear 2, Event.slotStore 2]
          ++ (List.range' s.heap.allocs.length live.length).map Event.CloneOutput
          ++ [Event.slotSwap 1 2]) := by
  have hcons : ∀ rest : List Event, (∀ e ∈ rest, e ≠ Event.lockAcquire ∧ e ≠ Event.lockRelease) →
      heldEvents 0 (([Event.lockAcquire, Event.ImGui_ImplDX12_NewFrame] ++
        (if s.m_imguiDrawDataBuffers.b1.Valid then [Event.slotSwap 0 1, Event.slotInvalidate 1] else []) ++
        [Event.lockRelease]) ++ rest) =
      Event.ImGui_ImplDX12_NewFrame ::
        (if s.m_imguiDrawDataBuffers.b1.Valid then [Event.slotSwap 0 1, Event.slotInvalidate 1] else []) := by
    intro rest hrest
    have hz := heldEvents_zero_of_noLock rest hrest
    by_cases hv : s.m_imguiDrawDataBuffers.b1.Valid = true <;> simp [hv, heldEvents, hz]
  refine ⟨?_, ?_, ?_⟩
  · rw [Consume_log, List.drop_left]
    simpa using hcons [] (by simp)
  · intro i s1 h
    obtain ⟨-, -, -, -, e⟩ := Update_ok s i s1 h
    rcases e with e | ⟨-, e⟩
    · rw [e, Consume_log, List.drop_left]
      simpa using hcons [] (by simp)
    · rw [e]
      simp only [Consume_log, List.append_assoc, List.drop_left]
      have := hcons submitEvents (by simp [submitEvents])
      simpa only [List.append_assoc] using this
  · intro live hi
    have hp : s.PrepareUpdate live = s.PrepareUpdateLocked live := by
      simp [D3D12.PrepareUpdate, hi]
    rw [hp, PrepareUpdateLocked_log, List.drop_left, List.cons_append, heldEvents_acquire,
      heldEvents_append_of_noLock 0 _ [Event.lockRelease]]
    · simp [heldEvents]
    · intro e he
      constructor <;>
      · rintro rfl
        simp at he
        have hm := List.mem_of_mem_take he
        simp at hm

/-- C9 (amended) at a concrete state: the initialised object publishing one frame. -/
theorem C9_lock_scope_witness :
    (sampleReady 3).m_initialized = true ∧
    heldEvents 0 ((samplePublished 3).log.drop (sampleReady 3).log.length) =
      [Event.ImGui_ImplWin32_NewFrame, Event.ImGui_NewFrame, Event.Overlay_Update, Event.VM_Draw,
        Event.ImGui_Render, Event.slotClear 2, Event.slotStore 2, Event.CloneOutput 0, Event.slotSwap 1 2] :=
  ⟨rfl, (C9_lock_scope (sampleReady 3)).2.2 [sampleDrawList] rfl⟩

/-! ## The Frame Context lookup -/

/-- C2 (the code at the failing input): `Initialize` succeeds on a swapchain with four
buffers and leaves three Frame Contexts, so that index 3, which such a swapchain reports
for its fourth buffer, is outside `m_frameContexts`, and `Update` at that index indexes the
vector out of range. -/
theorem C2_lookup_outside_frame_contexts :
    (sampleEnv 4).sdesc.BufferCount = 4 ∧
    (sampleBound.Initialize (sampleEnv 4)).2 = true ∧
    (sampleReady 4).m_frameContexts.length = 3 ∧
    (sampleReady 4).m_frameContexts[3]? = none ∧
    (samplePublished 4).Update 3 = .error Fault.frameContextOutOfRange :=
  ⟨rfl, rfl, rfl, rfl, rfl⟩

end CET
